import Mathlib

/-!
Verification of the deep-research workflow orchestration of the `a-agent`
repository: a shallow embedding of `state/schema.py`, `workflow/helpers.py`,
`workflow/nodes.py`, `workflow/routing.py` and `workflow/graph.py`, together
with theorems settling the frozen specification claims.

Modelling conventions for the dynamically typed Python source:
* JSON values (`json.loads` results) are modelled by the inductive `Json`.
  Numbers are modelled as integers: no claim depends on fractional values, and
  the embedded parser rejects fractional/exponent literals, `NaN`/`Infinity`
  and `\u` escapes which the Python parser would accept.  None of the inputs
  appearing in the theorems below use those features.
* Python dataclass fields are embedded at their declared types.  Where the
  source stores a raw JSON value into a field declared `str`/`List[str]`/`int`
  (e.g. `app.developer = data.get("developer", ...)`), the embedding reads the
  JSON value at the declared type and falls back to the default for
  type-nonconforming values; no claim exercises nonconforming values.
* Python truthiness is modelled by `pyTruthy`; `@dataclass` instances are
  always truthy, which makes some `if not x` guards in the source dead for
  actual instances (noted inline).
* Exceptions that the orchestration code would let escape are modelled with
  `Option`/`Except`.
-/

set_option maxHeartbeats 1000000

namespace AAgent

/-- Characters that the scanner cannot take as literals are named here. -/
def backquote : Char := Char.ofNat 96

def braceOpen : Char := Char.ofNat 123

def braceClose : Char := Char.ofNat 125

/-- JSON values as produced by Python's `json.loads` (integers only, see the
module conventions). -/
inductive Json where
  | null : Json
  | bool (b : Bool) : Json
  | num (n : Int) : Json
  | str (s : String) : Json
  | arr (items : List Json) : Json
  | obj (fields : List (String × Json)) : Json

instance : Inhabited Json := ⟨Json.null⟩

/-- Python truthiness of a JSON value (`bool(x)`): `None`, `False`, `0`, `""`,
`[]` and the empty dict are falsy. -/
def pyTruthy : Json → Bool
  | .null => false
  | .bool b => b
  | .num n => n != 0
  | .str s => s != ""
  | .arr items => !items.isEmpty
  | .obj fields => !fields.isEmpty

/-- JSON whitespace skipped by Python's `json` decoder: space, tab, LF, CR. -/
def isJsonWs (c : Char) : Bool :=
  c == ' ' || c == '\t' || c == '\n' || c == '\r'

/-- Whitespace in the sense of Python's regex `\s` and `str.strip()`:
space, tab, LF, CR, FF, VT. -/
def isPySpace (c : Char) : Bool :=
  c == ' ' || c == '\t' || c == '\n' || c == '\r' ||
    c == Char.ofNat 12 || c == Char.ofNat 11

def skipWs (cs : List Char) : List Char := cs.dropWhile isJsonWs

/-- Parse the body of a JSON string literal (after the opening quote),
returning the string and the input after the closing quote.  Supported
escapes: `\" \\ \/ \n \t \r \b \f` (`\uXXXX` is out of scope, see module
conventions). -/
def parseStrBody : List Char → List Char → Option (String × List Char)
  | [], _ => none
  | '"' :: rest, acc => some (String.mk acc.reverse, rest)
  | '\\' :: e :: rest, acc =>
    if e = '"' then parseStrBody rest ('"' :: acc)
    else if e = '\\' then parseStrBody rest ('\\' :: acc)
    else if e = '/' then parseStrBody rest ('/' :: acc)
    else if e = 'n' then parseStrBody rest ('\n' :: acc)
    else if e = 't' then parseStrBody rest ('\t' :: acc)
    else if e = 'r' then parseStrBody rest ('\r' :: acc)
    else if e = 'b' then parseStrBody rest (Char.ofNat 8 :: acc)
    else if e = 'f' then parseStrBody rest (Char.ofNat 12 :: acc)
    else none
  | ['\\'], _ => none
  | c :: rest, acc => parseStrBody rest (c :: acc)

def digitsToNat (ds : List Char) : Nat :=
  ds.foldl (fun n c => n * 10 + (c.toNat - 48)) 0

/-- Parse a JSON number.  Only integer literals are in scope: a fractional
part or exponent makes the parse fail (module conventions). -/
def parseNum (cs : List Char) : Option (Json × List Char) :=
  let (neg, cs1) := match cs with
    | '-' :: t => (true, t)
    | _ => (false, cs)
  let digits := cs1.takeWhile Char.isDigit
  let rest := cs1.dropWhile Char.isDigit
  if digits.isEmpty then none
  else if digits.length > 1 && digits.head? == some '0' then none
  else
    match rest with
    | '.' :: _ => none
    | 'e' :: _ => none
    | 'E' :: _ => none
    | _ =>
      let n : Int := Int.ofNat (digitsToNat digits)
      some (.num (if neg then -n else n), rest)

/-- Parsing tasks of the fuel-driven JSON parser: a value, the items of an
array after `[`, or the fields of an object after the opening brace. -/
inductive PTask where
  | value : PTask
  | arrTail (acc : List Json) : PTask
  | objTail (acc : List (String × Json)) : PTask

/-- One fuel-indexed step of the recursive-descent JSON parser mirroring
Python's `json.loads` grammar (integers only). -/
def parseStep : Nat → PTask → List Char → Option (Json × List Char)
  | 0, _, _ => none
  | fuel + 1, .value, cs =>
    match skipWs cs with
    | [] => none
    | c :: rest =>
      if c = 'n' then
        match c :: rest with
        | 'n' :: 'u' :: 'l' :: 'l' :: r => some (.null, r)
        | _ => none
      else if c = 't' then
        match c :: rest with
        | 't' :: 'r' :: 'u' :: 'e' :: r => some (.bool true, r)
        | _ => none
      else if c = 'f' then
        match c :: rest with
        | 'f' :: 'a' :: 'l' :: 's' :: 'e' :: r => some (.bool false, r)
        | _ => none
      else if c = '"' then
        match parseStrBody rest [] with
        | some (s, r) => some (.str s, r)
        | none => none
      else if c = '[' then
        match skipWs rest with
        | ']' :: r => some (.arr [], r)
        | r => parseStep fuel (.arrTail []) r
      else if c = braceOpen then
        match skipWs rest with
        | r =>
          match r with
          | b :: r2 => if b = braceClose then some (.obj [], r2)
                       else parseStep fuel (.objTail []) r
          | [] => none
      else if c = '-' || c.isDigit then parseNum (c :: rest)
      else none
  | fuel + 1, .arrTail acc, cs =>
    match parseStep fuel .value cs with
    | none => none
    | some (v, rest) =>
      match skipWs rest with
      | ',' :: r => parseStep fuel (.arrTail (acc ++ [v])) r
      | ']' :: r => some (.arr (acc ++ [v]), r)
      | _ => none
  | fuel + 1, .objTail acc, cs =>
    match skipWs cs with
    | '"' :: rest =>
      match parseStrBody rest [] with
      | none => none
      | some (k, r1) =>
        match skipWs r1 with
        | ':' :: r2 =>
          match parseStep fuel .value r2 with
          | none => none
          | some (v, r3) =>
            match skipWs r3 with
            | ',' :: r4 => parseStep fuel (.objTail (acc ++ [(k, v)])) r4
            | b :: r4 =>
              if b = braceClose then some (.obj (acc ++ [(k, v)]), r4) else none
            | [] => none
        | _ => none
    | _ => none

/-- Model of Python's `json.loads`: parse one JSON value and require that only
whitespace follows (otherwise Python raises "Extra data"). -/
def json_loads (s : String) : Option Json :=
  match parseStep (s.length * 4 + 16) .value s.data with
  | some (j, rest) => if (skipWs rest).isEmpty then some j else none
  | none => none

/-- Find the first occurrence of `pat` in a character list, returning the
characters before it and the characters after it. -/
def findSub (pat : List Char) : List Char → Option (List Char × List Char)
  | [] => if pat.isEmpty then some ([], []) else none
  | c :: cs =>
    if pat.isPrefixOf (c :: cs) then some ([], (c :: cs).drop pat.length)
    else
      match findSub pat cs with
      | some (pre, post) => some (c :: pre, post)
      | none => none

def fencePat : List Char := [backquote, backquote, backquote]

def dropTrailingWs (cs : List Char) : List Char :=
  (cs.reverse.dropWhile isPySpace).reverse

/-- Model of `re.search(r'<fence>(?:json)?\s*([\s\S]*?)\s*<fence>', content)`
(where `<fence>` is a triple backquote) returning the captured group: the text
between the first fence (after an optional `json` tag and greedy leading
whitespace) and the next fence, with the whitespace run before the closing
fence excluded by the lazy capture. -/
def findCodeBlock (content : String) : Option String :=
  match findSub fencePat content.data with
  | none => none
  | some (_, afterOpen) =>
    let afterTag :=
      if ("json".data).isPrefixOf afterOpen then afterOpen.drop 4 else afterOpen
    let body := afterTag.dropWhile isPySpace
    match findSub fencePat body with
    | none => none
    | some (inner, _) => some (String.mk (dropTrailingWs inner))

/-- Model of `re.search` for the greedy patterns `r'\[[\s\S]*\]'` and
`r'\{[\s\S]*\}'`: the span from the first opening character to the last
closing character, when the latter comes after the former. -/
def greedySpan (opench closech : Char) (content : String) : Option String :=
  let cs := content.data
  match cs.indexOf? opench, cs.reverse.indexOf? closech with
  | some i, some jr =>
    let j := cs.length - 1 - jr
    if i < j then some (String.mk ((cs.drop i).take (j - i + 1))) else none
  | _, _ => none

/-- Model of `re.sub(r',\s*([}\]])', r'\1', s)`: drop every comma that is
followed (possibly after whitespace) by a closing bracket or brace. -/
def stripCommasAux : Nat → List Char → List Char
  | 0, cs => cs
  | _ + 1, [] => []
  | fuel + 1, c :: rest =>
    if c = ',' then
      match rest.dropWhile isPySpace with
      | b :: tail =>
        if b = ']' || b = braceClose then b :: stripCommasAux fuel tail
        else c :: stripCommasAux fuel rest
      | [] => c :: stripCommasAux fuel rest
    else c :: stripCommasAux fuel rest

def stripCommas (s : String) : String :=
  String.mk (stripCommasAux (s.length + 1) s.data)

/-- Attempt 1 of `extract_json_from_response`: parse the contents of the first
fenced code block. -/
def fenceStep (content : String) : Option Json :=
  (findCodeBlock content).bind json_loads

/-- Attempt 2: parse the whole text. -/
def wholeStep (content : String) : Option Json :=
  json_loads content

/-- Attempt 3a: parse the greedy `[...]` span. -/
def bracketStep (content : String) : Option Json :=
  (greedySpan '[' ']' content).bind json_loads

/-- Attempt 3b: parse the greedy braced span. -/
def braceStep (content : String) : Option Json :=
  (greedySpan braceOpen braceClose content).bind json_loads

/-- Attempt 4: parse the first fenced code block again after removing
trailing commas before closing brackets/braces. -/
def cleanupStep (content : String) : Option Json :=
  (findCodeBlock content).bind (fun b => json_loads (stripCommas b))

/-- `workflow/helpers.py::extract_json_from_response`, translated with the
source's sequence of early returns (logging elided). -/
def extract_json_from_response (content : String) : Option Json :=
  -- Try to find JSON in code blocks first
  match (findCodeBlock content).bind json_loads with
  | some parsed => some parsed
  | none =>
    -- Try to parse the whole content as JSON
    match json_loads content with
    | some parsed => some parsed
    | none =>
      -- Try to find JSON array or object patterns
      match (greedySpan '[' ']' content).bind json_loads with
      | some parsed => some parsed
      | none =>
        match (greedySpan braceOpen braceClose content).bind json_loads with
        | some parsed => some parsed
        | none =>
          -- Last resort: fix trailing commas inside the code block
          match findCodeBlock content with
          | some blk => json_loads (stripCommas blk)
          | none => none

/-- Step 3 as the specification words it ("scan for the first balanced
bracketed (`[...]`) or braced (`{...}`) substring and parse that"), written
for comparison with the source's greedy-regex step: from the first opening
`[` or brace, take the span up to the nesting-balanced closing character. -/
def balancedFrom : Nat → List Char → Char → Char → Nat → List Char →
    Option (List Char)
  | 0, _, _, _, _, _ => none
  | _ + 1, [], _, _, _, _ => none
  | fuel + 1, c :: cs, opench, closech, depth, acc =>
    if c = closech then
      if depth = 1 then some (acc ++ [c])
      else balancedFrom fuel cs opench closech (depth - 1) (acc ++ [c])
    else if c = opench then
      balancedFrom fuel cs opench closech (depth + 1) (acc ++ [c])
    else balancedFrom fuel cs opench closech depth (acc ++ [c])

def firstBalancedSubstring (content : String) : Option String :=
  let rec go : List Char → Option (List Char)
    | [] => none
    | c :: cs =>
      if c = '[' then balancedFrom (cs.length + 1) (c :: cs) '[' ']' 0 []
      else if c = braceOpen then
        balancedFrom (cs.length + 1) (c :: cs) braceOpen braceClose 0 []
      else go cs
  (go content.data).map String.mk

def balancedStep (content : String) : Option Json :=
  (firstBalancedSubstring content).bind json_loads

/-! ### Data model (`state/schema.py`) -/

/-- `state/schema.py::ResearchPhase`. -/
inductive ResearchPhase where
  | INIT | PLANNING | DISCOVERY | DEEP_RESEARCH
  | REFLECTION | PATTERN_EXTRACTION | SYNTHESIS
  deriving DecidableEq

/-- `state/schema.py::SubQuery`. -/
structure SubQuery where
  query : String
  purpose : String
  executed : Bool := false
  results : String := ""

/-- `state/schema.py::AppOpportunity`.  `rating` and `opportunity_score` are
Python floats, embedded as integers (module conventions). -/
structure AppOpportunity where
  name : String
  developer : String := ""
  category : String := ""
  revenue_estimate : String := ""
  downloads_estimate : String := ""
  rating : Int := 0
  review_count : Int := 0
  clone_difficulty : Int := 0
  opportunity_score : Int := 0
  hook_feature : String := ""
  differentiation_angle : String := ""
  why_viral : String := ""
  growth_strategy : String := ""
  mvp_features : List String := []
  skip_features : List String := []
  trend_timing : String := ""
  clone_lessons : String := ""
  sources : List String := []
  raw_research : String := ""
  research_complete : Bool := false

/-- `state/schema.py::ResearchScratchpad`. -/
@[ext]
structure ResearchScratchpad where
  executed_queries : List String := []
  key_findings : List String := []
  gaps_identified : List String := []
  iteration_count : Nat := 0

/-- `state/schema.py::Pattern`. -/
structure Pattern where
  name : String
  description : String
  examples : List String := []
  how_to_apply : String := ""

/-- Python `str.lower` (ASCII case folding, module conventions). -/
def pyLower (s : String) : String := String.mk (s.data.map Char.toLower)

/-- Lower-cased names of a list of apps, as tracked by `add_apps`'s
`existing_names` set. -/
def namesL (apps : List AppOpportunity) : List String :=
  apps.map (fun a => pyLower a.name)

/-- `state/schema.py::add_apps`: accumulate apps, skipping any whose
lower-cased name was already seen (in `existing` or earlier in `new`).  The
Python `if not existing / if not new` guards are identities on lists and the
growing `existing_names` set is modelled by the second fold component. -/
def add_apps (existing new : List AppOpportunity) : List AppOpportunity :=
  (new.foldl
    (fun (p : List AppOpportunity × List String) app =>
      if pyLower app.name ∈ p.2 then p
      else (p.1 ++ [app], p.2 ++ [pyLower app.name]))
    (existing, namesL existing)).1

/-- `state/schema.py::merge_scratchpad`.  The `if not existing / if not new`
guards are dead for actual dataclass instances (always truthy), so the merge
is the final constructor expression. -/
def merge_scratchpad (existing new : ResearchScratchpad) : ResearchScratchpad where
  executed_queries :=
    existing.executed_queries ++
      new.executed_queries.filter (fun q => q ∉ existing.executed_queries)
  key_findings :=
    existing.key_findings ++
      new.key_findings.filter (fun f => f ∉ existing.key_findings)
  gaps_identified :=
    if new.gaps_identified.isEmpty then existing.gaps_identified
    else new.gaps_identified
  iteration_count := max existing.iteration_count new.iteration_count

/-! ### JSON field access helpers (Python `dict.get` at declared types)

Python dicts from `json.loads` keep the last value bound to a duplicated key,
hence the `getLast?`.  The `…D` helpers read the value at the declared type of
the target dataclass field and fall back to the provided default otherwise
(module conventions). -/

def jlookup (fields : List (String × Json)) (k : String) : Option Json :=
  (fields.filterMap (fun p => if p.1 = k then some p.2 else none)).getLast?

def hasKey (fields : List (String × Json)) (k : String) : Bool :=
  fields.any (fun p => p.1 = k)

def jgetD (fields : List (String × Json)) (k : String) (dflt : Json) : Json :=
  (jlookup fields k).getD dflt

def jgetStrD (fields : List (String × Json)) (k : String) (dflt : String) :
    String :=
  match jlookup fields k with
  | some (.str s) => s
  | _ => dflt

def jsonStrList (j : Json) : List String :=
  match j with
  | .arr items =>
    items.filterMap (fun v => match v with | .str s => some s | _ => none)
  | _ => []

def jgetStrListD (fields : List (String × Json)) (k : String)
    (dflt : List String) : List String :=
  match jlookup fields k with
  | some (.arr items) => jsonStrList (.arr items)
  | _ => dflt

def jgetListD (fields : List (String × Json)) (k : String) : List Json :=
  match jlookup fields k with
  | some (.arr items) => items
  | _ => []

/-- Python `float(x)` on a truthy JSON value, integer-valued (module
conventions); `none` models a raised `ValueError`/`TypeError`, which the
source catches and ignores. -/
def pyFloatOf : Json → Option Int
  | .num n => some n
  | .str s => s.toInt?
  | .bool b => some (if b then 1 else 0)
  | _ => none

/-- Python `int(x)` under the same conventions. -/
def pyIntOf : Json → Option Int
  | .num n => some n
  | .str s => s.toInt?
  | .bool b => some (if b then 1 else 0)
  | _ => none

/-! ### Response parsing (`workflow/helpers.py`) -/

/-- `workflow/helpers.py::parse_subqueries_from_response`. -/
def parse_subqueries_from_response (content : String) : List SubQuery :=
  match extract_json_from_response content with
  | some (.arr items) =>
    -- `if not data or not isinstance(data, list)`: an empty array is falsy,
    -- returning [] exactly as iterating it would
    items.filterMap (fun item =>
      match item with
      | .obj fields =>
        if hasKey fields "query" then
          some { query := jgetStrD fields "query" ""
                 purpose := jgetStrD fields "purpose" "" }
        else none
      | _ => none)
  | _ => []

/-- Candidate built from one array item by
`workflow/helpers.py::parse_apps_from_response`; `none` when the item is not
a dict with a `"name"` key (such items are skipped). -/
def parseAppItem : Json → Option AppOpportunity
  | .obj fields =>
    if hasKey fields "name" then
      let src1 :=
        match jlookup fields "source_url" with
        | some v => if pyTruthy v then [jgetStrD fields "source_url" ""] else []
        | none => []
      let src2 :=
        match jlookup fields "sources" with
        | some v => if pyTruthy v then jsonStrList v else []
        | none => []
      some { name := jgetStrD fields "name" ""
             developer := jgetStrD fields "developer" ""
             category := jgetStrD fields "category" ""
             why_viral :=
               jgetStrD fields "why_interesting"
                 (jgetStrD fields "description" "")
             sources := src1 ++ src2 }
    else none
  | _ => none

/-- `workflow/helpers.py::parse_apps_from_response`.  `none` models the
`TypeError` Python raises when iterating a truthy non-iterable extraction
result (a number or `true`); iterating a string yields characters, none of
which is a dict, hence `[]`. -/
def parse_apps_from_response (content : String) :
    Option (List AppOpportunity) :=
  match extract_json_from_response content with
  | none => some []
  | some data =>
    if !pyTruthy data then some []   -- `if not data: return []`
    else
      -- Handle both single object and array
      match data with
      | .obj fields => some (([Json.obj fields]).filterMap parseAppItem)
      | .arr items => some (items.filterMap parseAppItem)
      | .str _ => some []
      | _ => none

/-- `workflow/helpers.py::update_app_with_research`.  Python mutates `app` in
place and returns it; the embedding returns the resulting value. -/
def update_app_with_research (app : AppOpportunity) (content : String) :
    AppOpportunity :=
  match extract_json_from_response content with
  | some (.obj fields) =>
    if fields.isEmpty then
      -- `if not data or ...`: the empty dict is falsy, so even though a JSON
      -- object was extracted the unparsed branch runs
      { app with raw_research := app.raw_research ++ "\n\n" ++ content }
    else
      { app with
        developer := jgetStrD fields "developer" app.developer
        category := jgetStrD fields "category" app.category
        revenue_estimate := jgetStrD fields "revenue_estimate" app.revenue_estimate
        downloads_estimate := jgetStrD fields "downloads_estimate" app.downloads_estimate
        rating :=
          match jlookup fields "rating" with
          | some v => if pyTruthy v then (pyFloatOf v).getD app.rating else app.rating
          | none => app.rating
        hook_feature := jgetStrD fields "hook_feature" app.hook_feature
        differentiation_angle := jgetStrD fields "differentiation_angle" app.differentiation_angle
        why_viral := jgetStrD fields "why_viral" app.why_viral
        growth_strategy := jgetStrD fields "growth_strategy" app.growth_strategy
        clone_difficulty :=
          match jlookup fields "clone_difficulty" with
          | some v => if pyTruthy v then (pyIntOf v).getD app.clone_difficulty else app.clone_difficulty
          | none => app.clone_difficulty
        mvp_features := jgetStrListD fields "mvp_features" app.mvp_features
        skip_features := jgetStrListD fields "skip_features" app.skip_features
        clone_lessons := jgetStrD fields "clone_lessons" app.clone_lessons
        sources := jgetStrListD fields "sources" app.sources
        research_complete := true }
  | _ =>
    -- Even without JSON, mark raw research
    { app with raw_research := app.raw_research ++ "\n\n" ++ content }

/-- Result dict of `workflow/helpers.py::parse_reflection_response`.
`is_sufficient` keeps the raw JSON value: the caller applies Python
truthiness to it. -/
structure ReflectionEval where
  is_sufficient : Json
  apps_needing_more_research : List String
  suggested_queries : List String
  reasoning : String

/-- `workflow/helpers.py::parse_reflection_response`. -/
def parse_reflection_response (content : String) : ReflectionEval :=
  match extract_json_from_response content with
  | some (.obj fields) =>
    if fields.isEmpty then
      { is_sufficient := .bool false
        apps_needing_more_research := []
        suggested_queries := []
        reasoning := "Failed to parse reflection response" }
    else
      { is_sufficient := jgetD fields "is_sufficient" (.bool false)
        apps_needing_more_research :=
          jgetStrListD fields "apps_needing_more_research" []
        suggested_queries := jgetStrListD fields "suggested_queries" []
        reasoning := jgetStrD fields "reasoning" "" }
  | _ =>
    { is_sufficient := .bool false
      apps_needing_more_research := []
      suggested_queries := []
      reasoning := "Failed to parse reflection response" }

/-- `workflow/helpers.py::parse_patterns_response`. -/
def parse_patterns_response (content : String) :
    List Pattern × List String × List (String × String) :=
  match extract_json_from_response content with
  | some (.obj fields) =>
    if fields.isEmpty then ([], [], [])
    else
      ((jgetListD fields "patterns").filterMap (fun p =>
        match p with
        | .obj pf =>
          some { name := jgetStrD pf "name" ""
                 description := jgetStrD pf "description" ""
                 examples := jgetStrListD pf "examples" []
                 how_to_apply := jgetStrD pf "how_to_apply" "" }
        | _ => none),
       jgetStrListD fields "gaps" [],
       match jlookup fields "best_opportunities" with
       | some (.obj bo) =>
         bo.filterMap (fun p =>
           match p.2 with | .str s => some (p.1, s) | _ => none)
       | _ => [])
  | _ => ([], [], [])

/-- `workflow/helpers.py::generate_default_queries`.  `month`/`year` stand
for `date.today().strftime("%B")` / `date.today().year`, which the source
reads from the ambient clock. -/
def generate_default_queries (month : String) (year : Nat)
    (categories : List String) : List SubQuery :=
  (categories.flatMap (fun category =>
    [ { query := category ++ " apps trending reddit " ++ month ++ " " ++ toString year
        purpose := "Find viral apps from Reddit" },
      { query := "viral " ++ category ++ " app TikTok " ++ toString year
        purpose := "Find TikTok viral apps" },
      { query := "indie " ++ category ++ " app success story " ++ toString year
        purpose := "Find indie success stories" },
      { query := "best " ++ category ++ " apps comparison " ++ toString year
        purpose := "Understand the landscape" },
      { query := "Product Hunt " ++ category ++ " launches this week"
        purpose := "Find new launches" },
      { query := category ++ " app complaints reddit"
        purpose := "Find user pain points" } ])).take 12

/-! ### Messages and the `add_messages` reducer

Phase conversations are `Annotated[List[BaseMessage], add_messages]` channels.
LangGraph's `add_messages` merges by message id: right-hand messages replace
left-hand messages with the same id and the remaining ones are appended.  In
particular an empty right-hand delta leaves the channel unchanged. -/

structure Message where
  id : Nat
  tool_calls : Bool
  content : String

def addMessages (left right : List Message) : List Message :=
  (left.map (fun m =>
    match right.find? (fun r => r.id = m.id) with
    | some r => r
    | none => m)) ++
    right.filter (fun r => r.id ∉ left.map Message.id)

/-! ### Fallback candidate extraction (`workflow/nodes.py::extract_apps_from_messages`) -/

def pyStrip (s : String) : String :=
  String.mk (dropTrailingWs (s.data.dropWhile isPySpace))

def containsSub (sub s : String) : Bool :=
  (findSub sub.data s.data).isSome

def beforeFirst (sep s : String) : String :=
  match findSub sep.data s.data with
  | some (pre, _) => String.mk pre
  | none => s

def afterFirst (sep s : String) : String :=
  match findSub sep.data s.data with
  | some (_, post) => String.mk post
  | none => ""

def titleSeps : List String := [" - ", " | ", " : ", " – ", " — "]

def skipTerms : List String :=
  ["the", "best", "top", "new", "app", "apps", "review",
   "download", "free", "how", "what", "why", "2024", "2025", "2026"]

/-- Per-line step of `extract_apps_from_messages`: threading the accumulated
apps, the set of names found and the current source URL through one stripped
line. -/
def extractLineStep
    (st : List AppOpportunity × List String × String) (rawLine : String) :
    List AppOpportunity × List String × String :=
  let (apps, found, currentUrl) := st
  let line := pyStrip rawLine
  let currentUrl' :=
    if line.startsWith "URL:" || line.startsWith "Source:" then
      if containsSub ":" line then pyStrip (afterFirst ":" line) else ""
    else currentUrl
  if line.startsWith "Title:" then
    let title := pyStrip (line.replace "Title:" "")
    match titleSeps.find? (fun sep => containsSub sep title) with
    | some sep =>
      let potential := pyStrip (beforeFirst sep title)
      if potential.length > 2 && pyLower potential ∉ skipTerms then
        if potential ∉ found then
          (apps ++
            [{ name := potential
               why_viral := "Found in trending search results"
               sources := if currentUrl' ≠ "" then [currentUrl'] else [] }],
           found ++ [potential], currentUrl')
        else (apps, found, currentUrl')
      else (apps, found, currentUrl')
    | none => (apps, found, currentUrl')
  else (apps, found, currentUrl')

/-- `workflow/nodes.py::extract_apps_from_messages`: scan tool-result message
text for `Title:`/`URL:` search-result lines and mine candidate names,
capped at 15. -/
def extract_apps_from_messages (messages : List Message) :
    List AppOpportunity :=
  (messages.foldl
    (fun (st : List AppOpportunity × List String) msg =>
      let (apps', found', _) :=
        (msg.content.splitOn "\n").foldl extractLineStep (st.1, st.2, "")
      (apps', found'))
    ([], [])).1.take 15

/-! ### Workflow state and nodes (`workflow/nodes.py`)

The orchestration state (`AgentState`) restricted to the fields the deep
research graph reads or writes (`user_request`, the legacy `messages`
channel, `retry_count` and the `json_output` dict are omitted: no modelled
node or claim depends on them).  LLM and tool results are oracle inputs of
the node functions.  Deltas returned by nodes are applied with the channels'
reducers (`add_apps`, `merge_scratchpad`, `add_messages`, list append). -/

structure WState where
  categories : List String
  mode : String
  discovery_messages : List Message
  deep_research_messages : List Message
  current_phase : ResearchPhase
  research_plan : List SubQuery
  discovered_apps : List AppOpportunity
  current_app_index : Nat
  scratchpad : ResearchScratchpad
  is_research_sufficient : Bool
  reflection_feedback : String
  apps_needing_more_research : List String
  cross_app_patterns : List Pattern
  gaps : List String
  output_to_user : String
  errors : List String
  debug : Bool

/-- `state/schema.py::create_init_state`. -/
def create_init_state (categories : List String) (mode : String)
    (debug : Bool) : WState where
  categories := categories
  mode := mode
  discovery_messages := []
  deep_research_messages := []
  current_phase := .INIT
  research_plan := []
  discovered_apps := []
  current_app_index := 0
  scratchpad := {}
  is_research_sufficient := false
  reflection_feedback := ""
  apps_needing_more_research := []
  cross_app_patterns := []
  gaps := []
  output_to_user := ""
  errors := []
  debug := debug

/-- Result of an `Agent.run`/`run_simple` call (`agents/base.py`): the
messages to merge into the phase channel, the text content, and whether the
response requests tool calls. -/
structure AgentResult where
  messages : List Message
  content : String
  has_tool_calls : Bool

/-- `workflow/nodes.py::init_node`. -/
def init_node (s : WState) : WState :=
  { s with
    current_phase := .PLANNING
    scratchpad := merge_scratchpad s.scratchpad {} }

/-- `workflow/nodes.py::planning_node`.  The outcome of the planner worker's
LLM call is an oracle: `.ok content` or `.error e` for a raised exception;
`month`/`year` feed the date-dependent fallback. -/
def planning_node (s : WState) (month : String) (year : Nat)
    (outcome : Except String String) : WState :=
  match outcome with
  | .ok content =>
    let queries := parse_subqueries_from_response content
    let queries :=
      if queries.isEmpty then generate_default_queries month year s.categories
      else queries
    { s with research_plan := queries, current_phase := .DISCOVERY }
  | .error e =>
    { s with
      research_plan := generate_default_queries month year s.categories
      current_phase := .DISCOVERY
      errors := s.errors ++ ["Planning error: " ++ e] }

/-- `workflow/nodes.py::discovery_node`.  `none` models the `TypeError` that
`parse_apps_from_response` can raise on a truthy non-iterable extraction. -/
def discovery_node (s : WState) (r : AgentResult) : Option WState :=
  if r.has_tool_calls then
    some { s with
      discovery_messages := addMessages s.discovery_messages r.messages
      current_phase := .DISCOVERY }
  else
    match parse_apps_from_response r.content with
    | none => none
    | some parsed =>
      let new_apps :=
        if parsed.isEmpty && !s.discovery_messages.isEmpty then
          extract_apps_from_messages s.discovery_messages
        else parsed
      let updated_scratchpad : ResearchScratchpad :=
        { executed_queries :=
            s.scratchpad.executed_queries ++
              (s.research_plan.filter (fun q => !q.executed)).map SubQuery.query
          key_findings := s.scratchpad.key_findings
          gaps_identified := s.scratchpad.gaps_identified
          iteration_count := s.scratchpad.iteration_count + 1 }
      some { s with
        discovered_apps := add_apps s.discovered_apps new_apps
        scratchpad := merge_scratchpad s.scratchpad updated_scratchpad
        discovery_messages := addMessages s.discovery_messages r.messages
        current_phase := .DEEP_RESEARCH }

/-- `workflow/graph.py::discovery_tools_node`: the ToolNode executes the
requested tools and its result messages (`toolMsgs`, an oracle) are merged
into the discovery channel. -/
def discovery_tools_node (s : WState) (toolMsgs : List Message) : WState :=
  if s.discovery_messages.isEmpty then
    { s with discovery_messages := addMessages s.discovery_messages [] }
  else
    { s with discovery_messages := addMessages s.discovery_messages toolMsgs }

/-- `workflow/graph.py::deep_research_tools_node`. -/
def deep_research_tools_node (s : WState) (toolMsgs : List Message) : WState :=
  if s.deep_research_messages.isEmpty then
    { s with deep_research_messages := addMessages s.deep_research_messages [] }
  else
    { s with
      deep_research_messages := addMessages s.deep_research_messages toolMsgs }

/-- `workflow/nodes.py::deep_research_node`.  In the terminal branch Python
mutates `apps[current_index]` in place (`update_app_with_research` returns
its argument), so by the time the `add_apps` reducer merges the delta the
state's own list already carries the update; the reducer then appends
nothing because the name never changes.  The embedding applies the reducer
to the mutated list on both sides accordingly. -/
def deep_research_node (s : WState) (r : AgentResult) : WState :=
  if s.current_app_index ≥ s.discovered_apps.length then
    { s with
      current_phase := .REFLECTION
      deep_research_messages := addMessages s.deep_research_messages [] }
  else if r.has_tool_calls then
    { s with
      deep_research_messages := addMessages s.deep_research_messages r.messages
      current_phase := .DEEP_RESEARCH }
  else
    let current_app :=
      s.discovered_apps.getD s.current_app_index { name := "" }
    let updated_app := update_app_with_research current_app r.content
    let updated_apps := s.discovered_apps.set s.current_app_index updated_app
    { s with
      discovered_apps := add_apps updated_apps updated_apps
      current_app_index := s.current_app_index + 1
      deep_research_messages := addMessages s.deep_research_messages []
      current_phase := .DEEP_RESEARCH }

/-- `workflow/nodes.py::reflection_node`.  The outcome of the reflection
worker's LLM call is an oracle: `.ok content` or `.error e` when the call
raises. -/
def reflection_node (s : WState) (outcome : Except String String) : WState :=
  match outcome with
  | .ok content =>
    let evaluation := parse_reflection_response content
    if !pyTruthy evaluation.is_sufficient &&
        s.scratchpad.iteration_count < 3 then
      { s with
        is_research_sufficient := false
        reflection_feedback := evaluation.reasoning
        apps_needing_more_research := evaluation.apps_needing_more_research
        research_plan :=
          evaluation.suggested_queries.map
            (fun q => { query := q, purpose := "fill gap" })
        scratchpad :=
          merge_scratchpad s.scratchpad
            { executed_queries := s.scratchpad.executed_queries
              key_findings := s.scratchpad.key_findings
              gaps_identified := evaluation.apps_needing_more_research
              iteration_count := s.scratchpad.iteration_count + 1 }
        current_phase := .DISCOVERY
        discovery_messages := addMessages s.discovery_messages [] }
    else
      { s with
        is_research_sufficient := true
        reflection_feedback := evaluation.reasoning
        current_phase := .PATTERN_EXTRACTION }
  | .error e =>
    { s with
      is_research_sufficient := true
      reflection_feedback := "Error during reflection: " ++ e
      errors := s.errors ++ ["Reflection error: " ++ e]
      current_phase := .PATTERN_EXTRACTION }

/-- `workflow/nodes.py::pattern_extraction_node`. -/
def pattern_extraction_node (s : WState) (outcome : Except String String) :
    WState :=
  match outcome with
  | .ok content =>
    let (patterns, gapsFound, _best) := parse_patterns_response content
    { s with
      cross_app_patterns := patterns
      gaps := gapsFound
      current_phase := .SYNTHESIS }
  | .error e =>
    { s with
      cross_app_patterns := []
      gaps := []
      errors := s.errors ++ ["Pattern extraction error: " ++ e]
      current_phase := .SYNTHESIS }

/-- `workflow/nodes.py::synthesis_node` (the `json_output` dict is omitted,
module conventions). -/
def synthesis_node (s : WState) (outcome : Except String String) : WState :=
  match outcome with
  | .ok content =>
    { s with output_to_user := content, current_phase := .SYNTHESIS }
  | .error e =>
    { s with
      output_to_user := "Error generating report: " ++ e
      errors := s.errors ++ ["Synthesis error: " ++ e] }

/-! ### Routing (`workflow/routing.py`, as wired in `workflow/graph.py`) -/

/-- `workflow/routing.py::check_discovery_tools`. -/
def check_discovery_tools (s : WState) : String :=
  match s.discovery_messages.getLast? with
  | none => "deep_research"
  | some m => if m.tool_calls then "discovery_tools" else "deep_research"

/-- `workflow/routing.py::check_deep_research_tools`. -/
def check_deep_research_tools (s : WState) : String :=
  match s.deep_research_messages.getLast? with
  | none => "check_more_apps"
  | some m => if m.tool_calls then "deep_research_tools" else "check_more_apps"

/-- `workflow/routing.py::check_more_apps_to_research`. -/
def check_more_apps_to_research (s : WState) : String :=
  if s.current_phase = .REFLECTION then "reflection"
  else if s.current_app_index < s.discovered_apps.length then "deep_research"
  else "reflection"

/-- `workflow/routing.py::check_research_sufficient`. -/
def check_research_sufficient (s : WState) : String :=
  if s.current_phase = .DISCOVERY then "discovery"
  else if s.is_research_sufficient || s.current_phase = .PATTERN_EXTRACTION then
    "pattern_extraction"
  else "pattern_extraction"

/-! ### The compiled graph as a transition system (`workflow/graph.py`)

A configuration pairs the LangGraph control position (the graph node about
to run) with the workflow state.  Each `Step` constructor runs one node on
oracle inputs and follows the wired (conditional) edge.  Oracle results are
constrained by `ValidResult`: an `Agent.run` response list is non-empty, its
last element is the LLM response whose `tool_calls` drive `has_tool_calls`,
and fresh LangChain messages carry fresh ids. -/

inductive GNode where
  | init | planning | discovery | discovery_tools
  | deep_research | deep_research_tools | check_more_apps
  | reflection | pattern_extraction | synthesis | done
  deriving DecidableEq

/-- Well-formedness of an `Agent.run` result relative to the channel it is
merged into. -/
structure ValidResult (channel : List Message) (r : AgentResult) : Prop where
  nonempty : r.messages ≠ []
  last_flag : ∀ m, r.messages.getLast? = some m → m.tool_calls = r.has_tool_calls
  fresh : ∀ m ∈ r.messages, m.id ∉ channel.map Message.id

/-- Well-formedness of a ToolNode result: at least one tool message, none of
which is an assistant message with tool calls, all with fresh ids. -/
structure ValidToolMsgs (channel : List Message) (msgs : List Message) : Prop where
  nonempty : msgs ≠ []
  no_calls : ∀ m ∈ msgs, m.tool_calls = false
  fresh : ∀ m ∈ msgs, m.id ∉ channel.map Message.id

/-- Decode of the conditional-edge mapping after `discovery`. -/
def discoveryRoute (s : WState) : GNode :=
  if check_discovery_tools s = "discovery_tools" then .discovery_tools
  else .deep_research

/-- Decode of the conditional-edge mapping after `deep_research`. -/
def deepResearchRoute (s : WState) : GNode :=
  if check_deep_research_tools s = "deep_research_tools" then
    .deep_research_tools
  else .check_more_apps

/-- Decode of the conditional-edge mapping after `check_more_apps`. -/
def moreAppsRoute (s : WState) : GNode :=
  if check_more_apps_to_research s = "deep_research" then .deep_research
  else .reflection

/-- Decode of the conditional-edge mapping after `reflection`. -/
def reflectionRoute (s : WState) : GNode :=
  if check_research_sufficient s = "discovery" then .discovery
  else .pattern_extraction

/-- One LangGraph superstep of the deep research graph. -/
inductive Step : GNode × WState → GNode × WState → Prop where
  | init_step (s : WState) :
      Step (.init, s) (.planning, init_node s)
  | planning_step (s : WState) (month : String) (year : Nat)
      (outcome : Except String String) :
      Step (.planning, s) (.discovery, planning_node s month year outcome)
  | discovery_step (s : WState) (r : AgentResult) (s' : WState)
      (hv : ValidResult s.discovery_messages r)
      (hn : discovery_node s r = some s') :
      Step (.discovery, s) (discoveryRoute s', s')
  | discovery_tools_step (s : WState) (toolMsgs : List Message)
      (hv : ValidToolMsgs s.discovery_messages toolMsgs) :
      Step (.discovery_tools, s) (.discovery, discovery_tools_node s toolMsgs)
  | deep_research_step (s : WState) (r : AgentResult)
      (hv : ValidResult s.deep_research_messages r) :
      Step (.deep_research, s)
        (deepResearchRoute (deep_research_node s r), deep_research_node s r)
  | deep_research_tools_step (s : WState) (toolMsgs : List Message)
      (hv : ValidToolMsgs s.deep_research_messages toolMsgs) :
      Step (.deep_research_tools, s)
        (.deep_research, deep_research_tools_node s toolMsgs)
  | check_more_apps_step (s : WState) :
      Step (.check_more_apps, s) (moreAppsRoute s, s)
  | reflection_step (s : WState) (outcome : Except String String) :
      Step (.reflection, s)
        (reflectionRoute (reflection_node s outcome), reflection_node s outcome)
  | pattern_extraction_step (s : WState) (outcome : Except String String) :
      Step (.pattern_extraction, s)
        (.synthesis, pattern_extraction_node s outcome)
  | synthesis_step (s : WState) (outcome : Except String String) :
      Step (.synthesis, s) (.done, synthesis_node s outcome)

/-- The entry configuration of `run_workflow`. -/
def initialConfig (categories : List String) (mode : String) (debug : Bool) :
    GNode × WState :=
  (.init, create_init_state categories mode debug)

/-- Configurations reachable in some run of the deep research graph. -/
def ReachableConfig (c : GNode × WState) : Prop :=
  ∃ categories mode debug,
    Relation.ReflTransGen Step (initialConfig categories mode debug) c

/-! ### Lemmas about the reducers -/

/-- Recursion-friendly form of `add_apps`. -/
def addAppsGo (existing : List AppOpportunity) :
    List AppOpportunity → List AppOpportunity
  | [] => existing
  | app :: rest =>
    if pyLower app.name ∈ namesL existing then addAppsGo existing rest
    else addAppsGo (existing ++ [app]) rest

theorem namesL_append (l₁ l₂ : List AppOpportunity) :
    namesL (l₁ ++ l₂) = namesL l₁ ++ namesL l₂ := by
  simp [namesL]

theorem add_apps_eq_go (existing new : List AppOpportunity) :
    add_apps existing new = addAppsGo existing new := by
  suffices h : ∀ (new : List AppOpportunity) (acc : List AppOpportunity),
      (new.foldl
        (fun (p : List AppOpportunity × List String) app =>
          if pyLower app.name ∈ p.2 then p
          else (p.1 ++ [app], p.2 ++ [pyLower app.name]))
        (acc, namesL acc)).1 = addAppsGo acc new by
    exact h new existing
  intro new
  induction new with
  | nil => intro acc; rfl
  | cons app rest ih =>
    intro acc
    simp only [List.foldl_cons, addAppsGo]
    by_cases hmem : pyLower app.name ∈ namesL acc
    · simp only [hmem, if_true]
      exact ih acc
    · simp only [hmem, if_false]
      have : namesL acc ++ [pyLower app.name] = namesL (acc ++ [app]) := by
        simp [namesL]
      rw [this]
      exact ih (acc ++ [app])

theorem addAppsGo_sublist (new : List AppOpportunity) :
    ∀ existing, ∃ appended,
      addAppsGo existing new = existing ++ appended ∧ appended.Sublist new := by
  induction new with
  | nil => intro existing; exact ⟨[], by simp [addAppsGo], List.Sublist.refl _⟩
  | cons app rest ih =>
    intro existing
    simp only [addAppsGo]
    by_cases hmem : pyLower app.name ∈ namesL existing
    · simp only [hmem, if_true]
      obtain ⟨appended, heq, hsub⟩ := ih existing
      exact ⟨appended, heq, hsub.cons app⟩
    · simp only [hmem, if_false]
      obtain ⟨appended, heq, hsub⟩ := ih (existing ++ [app])
      exact ⟨app :: appended, by simp [heq], hsub.cons₂ app⟩

theorem addAppsGo_nodup (new : List AppOpportunity) :
    ∀ existing, (namesL existing).Nodup →
      (namesL (addAppsGo existing new)).Nodup := by
  induction new with
  | nil => intro existing h; exact h
  | cons app rest ih =>
    intro existing h
    simp only [addAppsGo]
    by_cases hmem : pyLower app.name ∈ namesL existing
    · simp only [hmem, if_true]; exact ih existing h
    · simp only [hmem, if_false]
      refine ih (existing ++ [app]) ?_
      rw [namesL_append]
      simp only [namesL, List.map_cons, List.map_nil]
      refine List.Nodup.append h (List.nodup_singleton _) ?_
      intro x hx hx1
      rw [List.mem_singleton] at hx1
      subst hx1
      exact hmem hx

theorem add_apps_nodup (existing new : List AppOpportunity)
    (h : (namesL existing).Nodup) :
    (namesL (add_apps existing new)).Nodup := by
  rw [add_apps_eq_go]; exact addAppsGo_nodup new existing h

theorem add_apps_prefix (existing new : List AppOpportunity) :
    ∃ appended, add_apps existing new = existing ++ appended ∧
      appended.Sublist new := by
  rw [add_apps_eq_go]; exact addAppsGo_sublist new existing

theorem add_apps_length_le (existing new : List AppOpportunity) :
    existing.length ≤ (add_apps existing new).length := by
  obtain ⟨appended, heq, -⟩ := add_apps_prefix existing new
  simp [heq]

/-- Claim C4: for every sequence of discovery deltas applied through the
`add_apps` candidate reducer — including a single delta containing both
"FocusApp" and "focusapp" — the accumulated `discovered_apps` list contains
no two entries whose names are equal under case-insensitive comparison, new
names are appended in encounter order (a sublist of the delta, after the
untouched existing entries), and entries already present are left
untouched. -/
theorem add_apps_dedup_invariant :
    (∀ deltas : List (List AppOpportunity),
      (namesL (deltas.foldl add_apps [])).Nodup) ∧
    (∀ existing new, ∃ appended,
      add_apps existing new = existing ++ appended ∧ appended.Sublist new) ∧
    add_apps [] [{ name := "FocusApp" }, { name := "focusapp" }] =
      [{ name := "FocusApp" }] := by
  refine ⟨?_, add_apps_prefix, rfl⟩
  intro deltas
  suffices h : ∀ (ds : List (List AppOpportunity)) (acc : List AppOpportunity),
      (namesL acc).Nodup → (namesL (ds.foldl add_apps acc)).Nodup by
    exact h deltas [] (by simp [namesL])
  intro ds
  induction ds with
  | nil => intro acc h; exact h
  | cons d rest ih =>
    intro acc h
    exact ih (add_apps acc d) (add_apps_nodup acc d h)

/-- Counterexample to claim C7: a delta whose `executed_queries` list itself contains
a duplicate is merged without deduplication: the result of a single merge is
not duplicate-free, refuting the claim's "end up as duplicate-free unions"
for arbitrary deltas. -/
theorem merge_scratchpad_dup_counterexample :
    (merge_scratchpad {} { executed_queries := ["q", "q"] }).executed_queries
      = ["q", "q"] ∧
    ¬ (merge_scratchpad {} { executed_queries := ["q", "q"] }).executed_queries.Nodup := by
  constructor
  · rfl
  · intro h
    rw [show (merge_scratchpad {} { executed_queries := ["q", "q"] }).executed_queries
        = ["q", "q"] from rfl] at h
    simp at h

/-- Claim C7 as amended: the scratchpad merge reducer is idempotent for every state
and delta; `executed_queries` and `key_findings` are unions preserving
first-seen order and are duplicate-free whenever both sides are;
`gaps_identified` is the newest non-empty value and `iteration_count` the
maximum of the two sides. -/
theorem merge_scratchpad_idempotent_amended :
    (∀ s d, merge_scratchpad (merge_scratchpad s d) d = merge_scratchpad s d) ∧
    (∀ s d : ResearchScratchpad, s.executed_queries.Nodup →
      d.executed_queries.Nodup →
      (merge_scratchpad s d).executed_queries.Nodup ∧
      ∀ q, q ∈ (merge_scratchpad s d).executed_queries ↔
        q ∈ s.executed_queries ∨ q ∈ d.executed_queries) ∧
    (∀ s d : ResearchScratchpad, s.key_findings.Nodup → d.key_findings.Nodup →
      (merge_scratchpad s d).key_findings.Nodup ∧
      ∀ f, f ∈ (merge_scratchpad s d).key_findings ↔
        f ∈ s.key_findings ∨ f ∈ d.key_findings) ∧
    (∀ s d : ResearchScratchpad,
      (merge_scratchpad s d).gaps_identified =
        if d.gaps_identified.isEmpty then s.gaps_identified
        else d.gaps_identified) ∧
    (∀ s d : ResearchScratchpad,
      (merge_scratchpad s d).iteration_count =
        max s.iteration_count d.iteration_count) := by
  have hunion : ∀ (e n : List String), e.Nodup → n.Nodup →
      (e ++ n.filter (fun q => q ∉ e)).Nodup ∧
      ∀ q, q ∈ e ++ n.filter (fun q => q ∉ e) ↔ q ∈ e ∨ q ∈ n := by
    intro e n he hn
    constructor
    · refine List.Nodup.append he (hn.filter _) ?_
      intro q hq hq2
      rcases List.mem_filter.mp hq2 with ⟨-, hdec⟩
      exact absurd hq (by simpa using hdec)
    · intro q
      simp only [List.mem_append, List.mem_filter, decide_not,
        Bool.not_eq_true', decide_eq_false_iff_not]
      constructor
      · rintro (h | ⟨h, -⟩)
        · exact Or.inl h
        · exact Or.inr h
      · rintro (h | h)
        · exact Or.inl h
        · by_cases hqe : q ∈ e
          · exact Or.inl hqe
          · exact Or.inr ⟨h, hqe⟩
  have hfilter : ∀ (e n : List String),
      n.filter (fun q => q ∉ e ++ n.filter (fun q => q ∉ e)) = [] := by
    intro e n
    rw [List.filter_eq_nil_iff]
    intro q hq
    simp only [decide_eq_true_eq, not_not]
    rw [List.mem_append]
    by_cases hqe : q ∈ e
    · exact Or.inl hqe
    · exact Or.inr (List.mem_filter.mpr ⟨hq, by simpa using hqe⟩)
  refine ⟨?_, ?_, ?_, fun s d => rfl, fun s d => rfl⟩
  · intro s d
    refine ResearchScratchpad.ext ?_ ?_ ?_ ?_
    · show (merge_scratchpad s d).executed_queries ++
        d.executed_queries.filter
          (fun q => q ∉ (merge_scratchpad s d).executed_queries) =
        (merge_scratchpad s d).executed_queries
      rw [show (merge_scratchpad s d).executed_queries =
          s.executed_queries ++
            d.executed_queries.filter (fun q => q ∉ s.executed_queries)
        from rfl]
      rw [hfilter, List.append_nil]
    · show (merge_scratchpad s d).key_findings ++
        d.key_findings.filter
          (fun f => f ∉ (merge_scratchpad s d).key_findings) =
        (merge_scratchpad s d).key_findings
      rw [show (merge_scratchpad s d).key_findings =
          s.key_findings ++
            d.key_findings.filter (fun f => f ∉ s.key_findings)
        from rfl]
      rw [hfilter, List.append_nil]
    · show (if d.gaps_identified.isEmpty then
          (merge_scratchpad s d).gaps_identified else d.gaps_identified) = _
      by_cases hg : d.gaps_identified.isEmpty <;>
        simp [merge_scratchpad, hg]
    · show max (max s.iteration_count d.iteration_count) d.iteration_count = _
      rw [Nat.max_assoc, Nat.max_self]
      rfl
  · intro s d hs hd
    exact hunion s.executed_queries d.executed_queries hs hd
  · intro s d hs hd
    exact hunion s.key_findings d.key_findings hs hd

/-! ### Planning fallback (C6) -/

/-- Counterexample to claim C6: with three input categories the deterministic
fallback emits six queries per category and truncates to the first twelve,
so the third category ("gamma") appears in no fallback query at all: the
fallback does not cover every input category. -/
theorem default_queries_miss_category_counterexample :
    ("gamma" ∈ ["alpha", "beta", "gamma"]) ∧
    (generate_default_queries "January" 2026 ["alpha", "beta", "gamma"]).length
      = 12 ∧
    ∀ q ∈ generate_default_queries "January" 2026 ["alpha", "beta", "gamma"],
      ¬ ("gamma".data <:+: q.query.data) := by
  refine ⟨by decide, rfl, ?_⟩
  decide

/-- Claim C6 as amended: if the planning worker's LLM call throws, or its response
yields no parseable sub-queries, the planning node still transitions to
Discovery with the deterministically generated fallback query list of length
at most 12; the fallback is built from six query templates per category in
order, so it covers (as a query prefix) each of the first two input
categories, and with more than two categories the later ones may be
uncovered. -/
theorem planning_fallback_amended :
    (∀ (s : WState) (month : String) (year : Nat) (e : String),
      (planning_node s month year (.error e)).current_phase = .DISCOVERY ∧
      (planning_node s month year (.error e)).research_plan =
        generate_default_queries month year s.categories ∧
      (planning_node s month year (.error e)).research_plan.length ≤ 12 ∧
      ∀ c ∈ s.categories.take 2,
        ∃ q ∈ (planning_node s month year (.error e)).research_plan,
          c.data <+: q.query.data) ∧
    (∀ (s : WState) (month : String) (year : Nat) (content : String),
      parse_subqueries_from_response content = [] →
      (planning_node s month year (.ok content)).current_phase = .DISCOVERY ∧
      (planning_node s month year (.ok content)).research_plan =
        generate_default_queries month year s.categories ∧
      (planning_node s month year (.ok content)).research_plan.length ≤ 12 ∧
      ∀ c ∈ s.categories.take 2,
        ∃ q ∈ (planning_node s month year (.ok content)).research_plan,
          c.data <+: q.query.data) := by
  have hlen : ∀ (month : String) (year : Nat) (cats : List String),
      (generate_default_queries month year cats).length ≤ 12 := by
    intro month year cats
    exact List.length_take_le 12 _
  have hcover : ∀ (month : String) (year : Nat) (cats : List String),
      ∀ c ∈ cats.take 2, ∃ q ∈ generate_default_queries month year cats,
        c.data <+: q.query.data := by
    intro month year cats c hc
    match cats, hc with
    | c0 :: rest, hc =>
      rw [List.take_succ_cons] at hc
      rcases List.mem_cons.mp hc with hc0 | hc1
      · subst hc0
        refine ⟨{ query := c ++ " apps trending reddit " ++ month ++ " " ++
            toString year, purpose := "Find viral apps from Reddit" }, ?_, ?_⟩
        · simp [generate_default_queries]
        · simp only [String.data_append, List.append_assoc]
          exact List.prefix_append _ _
      · match rest, hc1 with
        | c1 :: rest', hc1 =>
          rw [List.take_succ_cons, List.take_zero] at hc1
          rcases List.mem_cons.mp hc1 with hc1' | hnil
          · subst hc1'
            refine ⟨{ query := c ++ " apps trending reddit " ++ month ++ " " ++
                toString year, purpose := "Find viral apps from Reddit" },
                ?_, ?_⟩
            · simp [generate_default_queries]
            · simp only [String.data_append, List.append_assoc]
              exact List.prefix_append _ _
          · cases hnil
  constructor
  · intro s month year e
    refine ⟨rfl, rfl, hlen month year s.categories, ?_⟩
    intro c hc
    exact hcover month year s.categories c hc
  · intro s month year content hparse
    constructor
    · show (planning_node s month year (.ok content)).current_phase = _
      simp only [planning_node, hparse, List.isEmpty_nil, if_true]
    constructor
    · show (planning_node s month year (.ok content)).research_plan = _
      simp only [planning_node, hparse, List.isEmpty_nil, if_true]
    constructor
    · show (planning_node s month year (.ok content)).research_plan.length ≤ 12
      simp only [planning_node, hparse, List.isEmpty_nil, if_true]
      exact hlen month year s.categories
    · intro c hc
      simp only [planning_node, hparse, List.isEmpty_nil, if_true]
      exact hcover month year s.categories c hc

/-! ### Deep-research update on unparseable output (C9) -/

/-- Whether the extraction result drives `update_app_with_research` into its
enrichment branch: a truthy (non-empty) JSON object. -/
def isEnrichable : Option Json → Bool
  | some (.obj (_ :: _)) => true
  | _ => false

/-- Counterexample to claim C9: the terminal output `"{}"` yields an extracted JSON
object (the empty one), yet `update_app_with_research` takes the unparsed
branch because the empty dict is falsy: `research_complete` stays false even
though a JSON object was extracted, refuting the claim's "when a JSON object
is extracted, research_complete is set to true". -/
theorem update_app_empty_object_counterexample :
    extract_json_from_response "\x7b\x7d" = some (Json.obj []) ∧
    (update_app_with_research { name := "TestApp" } "\x7b\x7d").research_complete
      = false ∧
    (update_app_with_research { name := "TestApp" } "\x7b\x7d").raw_research
      = "\n\n\x7b\x7d" :=
  ⟨rfl, rfl, rfl⟩

/-- Claim C9 as amended: when extraction yields no truthy JSON object (no JSON at
all, a non-object, or the falsy empty object), `update_app_with_research`
appends the raw LLM text to the candidate's `raw_research` and changes no
other field (in particular `research_complete` keeps its value and the name
is untouched); when a non-empty JSON object is extracted,
`research_complete` is set to true and the name is still never changed. -/
theorem update_app_with_research_amended :
    (∀ (app : AppOpportunity) (content : String),
      isEnrichable (extract_json_from_response content) = false →
      update_app_with_research app content =
        { app with raw_research := app.raw_research ++ "\n\n" ++ content }) ∧
    (∀ (app : AppOpportunity) (content : String),
      isEnrichable (extract_json_from_response content) = true →
      (update_app_with_research app content).research_complete = true ∧
      (update_app_with_research app content).name = app.name) := by
  constructor
  · intro app content h
    unfold update_app_with_research
    cases hex : extract_json_from_response content with
    | none => rfl
    | some j =>
      cases j with
      | obj fields =>
        cases fields with
        | nil => rfl
        | cons f fs =>
          rw [hex] at h
          simp [isEnrichable] at h
      | null => rfl
      | bool b => rfl
      | num n => rfl
      | str s => rfl
      | arr items => rfl
  · intro app content h
    unfold update_app_with_research
    cases hex : extract_json_from_response content with
    | none => rw [hex] at h; simp [isEnrichable] at h
    | some j =>
      cases j with
      | obj fields =>
        cases fields with
        | nil => rw [hex] at h; simp [isEnrichable] at h
        | cons f fs => exact ⟨rfl, rfl⟩
      | null => rw [hex] at h; simp [isEnrichable] at h
      | bool b => rw [hex] at h; simp [isEnrichable] at h
      | num n => rw [hex] at h; simp [isEnrichable] at h
      | str s => rw [hex] at h; simp [isEnrichable] at h
      | arr items => rw [hex] at h; simp [isEnrichable] at h

/-! ### Discovery response parsing (C10) -/

/-- Claim C10: a discovery response whose extracted JSON is a single object is
treated as the one-element list `[obj]`, yielding exactly one candidate when
the object has a `"name"` key (and none otherwise); when the extraction is
an array, every item that is not an object with a `"name"` key is skipped
rather than raising, so the result contains only named candidates. -/
theorem parse_apps_single_object_and_skip :
    (∀ (content : String) (fields : List (String × Json)),
      extract_json_from_response content = some (.obj fields) →
      parse_apps_from_response content =
        some (([Json.obj fields]).filterMap parseAppItem) ∧
      (hasKey fields "name" = true →
        (([Json.obj fields]).filterMap parseAppItem).length = 1)) ∧
    (∀ (content : String) (items : List Json),
      extract_json_from_response content = some (.arr items) →
      parse_apps_from_response content =
        some (items.filterMap parseAppItem)) ∧
    (∀ item : Json,
      (¬ ∃ fields, item = .obj fields ∧ hasKey fields "name" = true) →
      parseAppItem item = none) := by
  refine ⟨?_, ?_, ?_⟩
  · intro content fields hex
    constructor
    · unfold parse_apps_from_response
      rw [hex]
      cases fields with
      | nil => rfl
      | cons f fs => rfl
    · intro hname
      simp [List.filterMap_cons, parseAppItem, hname]
  · intro content items hex
    unfold parse_apps_from_response
    rw [hex]
    cases items with
    | nil => rfl
    | cons j js => rfl
  · intro item h
    cases item with
    | obj fields =>
      cases hname : hasKey fields "name" with
      | true => exact absurd ⟨fields, rfl, hname⟩ h
      | false => simp [parseAppItem, hname]
    | null => rfl
    | bool b => rfl
    | num n => rfl
    | str s => rfl
    | arr items => rfl

/-! ### Reflection fail-open policy (C2) -/

/-- Reflection-phase state with one iteration behind it, below the cap. -/
def reflectTestState : WState :=
  { create_init_state ["productivity"] "general" false with
    current_phase := .REFLECTION
    scratchpad := { iteration_count := 1 } }

/-- Counterexample to claim C2: when the reflection response contains no parseable
JSON (but the LLM call itself did not raise), `parse_reflection_response`
reports `is_sufficient = False`, and with `iteration_count < 3` the node
routes back to Discovery — not to PatternExtraction as the claim states. -/
theorem reflection_unparseable_counterexample :
    extract_json_from_response "no json here" = none ∧
    (reflection_node reflectTestState (.ok "no json here")).current_phase
      = .DISCOVERY ∧
    (reflection_node reflectTestState (.ok "no json here")).is_research_sufficient
      = false ∧
    check_research_sufficient (reflection_node reflectTestState (.ok "no json here"))
      = "discovery" :=
  ⟨rfl, rfl, rfl, rfl⟩

/-- Claim C2 as amended: if the reflection worker's LLM call raises an exception,
the verdict is treated as sufficient and the run proceeds to
PatternExtraction; but when the call succeeds and its response contains no
parseable JSON, the parsed verdict is insufficient: below the iteration cap
the run goes back to Discovery, and only at the cap does it proceed to
PatternExtraction. -/
theorem reflection_fail_open_amended :
    (∀ (s : WState) (e : String),
      (reflection_node s (.error e)).is_research_sufficient = true ∧
      (reflection_node s (.error e)).current_phase = .PATTERN_EXTRACTION ∧
      check_research_sufficient (reflection_node s (.error e))
        = "pattern_extraction") ∧
    (∀ (s : WState) (content : String),
      extract_json_from_response content = none →
      (s.scratchpad.iteration_count < 3 →
        (reflection_node s (.ok content)).current_phase = .DISCOVERY ∧
        (reflection_node s (.ok content)).is_research_sufficient = false) ∧
      (3 ≤ s.scratchpad.iteration_count →
        (reflection_node s (.ok content)).current_phase = .PATTERN_EXTRACTION ∧
        (reflection_node s (.ok content)).is_research_sufficient = true)) := by
  constructor
  · intro s e
    refine ⟨rfl, rfl, ?_⟩
    show check_research_sufficient _ = _
    unfold check_research_sufficient
    simp [reflection_node]
  · intro s content hex
    have hparse : parse_reflection_response content =
        { is_sufficient := .bool false
          apps_needing_more_research := []
          suggested_queries := []
          reasoning := "Failed to parse reflection response" } := by
      unfold parse_reflection_response
      rw [hex]
    constructor
    · intro hlt
      simp only [reflection_node, hparse, pyTruthy, Bool.not_false,
        Bool.true_and, decide_eq_true_eq]
      rw [if_pos hlt]
      exact ⟨rfl, rfl⟩
    · intro hge
      simp only [reflection_node, hparse, pyTruthy, Bool.not_false,
        Bool.true_and, decide_eq_true_eq]
      rw [if_neg (by omega)]
      exact ⟨rfl, rfl⟩

/-! ### Response parser step order (C8) -/

/-- Counterexample to claim C8: on `"a [1] b [2] c"` the fenced-block and whole-text
parses both fail, so step 3 is reached; the spec's step 3 would parse the
first balanced bracketed substring `"[1]"` successfully, but the source's
step 3 is the greedy regex `\[[\s\S]*\]`, which spans `"[1] b [2]"` (first
`[` to last `]`), fails to parse, and the extractor ends up returning
nothing at all. -/
theorem extract_json_step3_counterexample :
    fenceStep "a [1] b [2] c" = none ∧
    wholeStep "a [1] b [2] c" = none ∧
    greedySpan '[' ']' "a [1] b [2] c" = some "[1] b [2]" ∧
    firstBalancedSubstring "a [1] b [2] c" = some "[1]" ∧
    balancedStep "a [1] b [2] c" = some (.arr [.num 1]) ∧
    extract_json_from_response "a [1] b [2] c" = none :=
  ⟨rfl, rfl, rfl, rfl, rfl, rfl⟩

/-- Claim C8 as amended: the response parser tries its extraction attempts in the
stated order with first success winning; step 3 — reached only when the
fenced-code-block parse and the whole-text parse both fail — parses the
greedy span from the first `[` to the last `]` (and then from the first
brace to the last brace), not the first balanced substring. -/
theorem extract_json_step_order_amended :
    ∀ content : String,
      (∀ j, fenceStep content = some j →
        extract_json_from_response content = some j) ∧
      (fenceStep content = none → ∀ j, wholeStep content = some j →
        extract_json_from_response content = some j) ∧
      (fenceStep content = none → wholeStep content = none →
        ∀ j, bracketStep content = some j →
        extract_json_from_response content = some j) ∧
      (fenceStep content = none → wholeStep content = none →
        bracketStep content = none → ∀ j, braceStep content = some j →
        extract_json_from_response content = some j) ∧
      (fenceStep content = none → wholeStep content = none →
        bracketStep content = none → braceStep content = none →
        extract_json_from_response content = cleanupStep content) := by
  intro content
  have h1 : (findCodeBlock content).bind json_loads = fenceStep content := rfl
  have h3 : (greedySpan '[' ']' content).bind json_loads =
      bracketStep content := rfl
  have h4 : (greedySpan braceOpen braceClose content).bind json_loads =
      braceStep content := rfl
  refine ⟨?_, ?_, ?_, ?_, ?_⟩
  · intro j hj
    unfold extract_json_from_response
    rw [h1, hj]
  · intro hf j hj
    unfold extract_json_from_response
    rw [h1, hf]
    show (match wholeStep content with
      | some parsed => some parsed
      | none => _) = some j
    rw [hj]
  · intro hf hw j hj
    unfold extract_json_from_response
    rw [h1, hf]
    show (match wholeStep content with
      | some parsed => some parsed
      | none => _) = some j
    rw [hw, h3, hj]
  · intro hf hw hb j hj
    unfold extract_json_from_response
    rw [h1, hf]
    show (match wholeStep content with
      | some parsed => some parsed
      | none => _) = some j
    rw [hw, h3, hb, h4, hj]
  · intro hf hw hb hc
    unfold extract_json_from_response
    rw [h1, hf]
    show (match wholeStep content with
      | some parsed => some parsed
      | none => _) = cleanupStep content
    rw [hw, h3, hb, h4, hc]
    unfold cleanupStep
    cases hcb : findCodeBlock content with
    | none => rfl
    | some blk => rfl

/-! ### Conversation clearing (C3) -/

/-- A leftover message from an earlier turn of a phase conversation. -/
def leftoverMsg : Message :=
  { id := 1, tool_calls := false, content := "earlier turn" }

/-- Deep-research state about to finish candidate 0 of 2, with one leftover
message in the per-candidate conversation. -/
def deepResearchTestState : WState :=
  { create_init_state ["productivity"] "general" false with
    current_phase := .DEEP_RESEARCH
    discovered_apps := [{ name := "A" }, { name := "B" }]
    current_app_index := 0
    deep_research_messages := [leftoverMsg] }

/-- A terminal deep-research response without tool calls. -/
def deepResearchTerminalResult : AgentResult :=
  { messages := [{ id := 2, tool_calls := false, content := "done" }]
    content := "research notes without structured output"
    has_tool_calls := false }

/-- Reflection-phase state with a non-empty discovery conversation, below
the iteration cap. -/
def reflectionBackTestState : WState :=
  { create_init_state ["productivity"] "general" false with
    current_phase := .REFLECTION
    discovery_messages := [leftoverMsg]
    scratchpad := { iteration_count := 1 } }

/-- Claim C3 evaluated at the failing input (the claim is right, the code wrong).  Both "clearing" deltas return `[]`
for an `add_messages`-reduced channel, and merging `[]` with `add_messages`
appends nothing: after the deep-research node finishes a candidate (terminal
response without tool calls) the per-candidate history still holds the
previous messages, and after reflection sends the run back to Discovery the
discovery history is likewise non-empty, contradicting the claimed reset
(and the source's own `# Clear for next app` / `# Clear for new round`
comments). -/
theorem conversation_not_cleared_on_phase_completion :
    (deep_research_node deepResearchTestState deepResearchTerminalResult).current_app_index
      = 1 ∧
    (deep_research_node deepResearchTestState deepResearchTerminalResult).deep_research_messages
      = [leftoverMsg] ∧
    (reflection_node reflectionBackTestState (.ok "unparseable")).current_phase
      = .DISCOVERY ∧
    (reflection_node reflectionBackTestState (.ok "unparseable")).discovery_messages
      = [leftoverMsg] :=
  ⟨rfl, rfl, rfl, rfl⟩

/-! ### Lemmas about `add_messages` and the routers -/

theorem addMessages_nil_right (l : List Message) : addMessages l [] = l := by
  simp [addMessages]

theorem addMessages_getLast (left right : List Message) (h1 : right ≠ [])
    (h2 : ∀ m ∈ right, m.id ∉ left.map Message.id) :
    (addMessages left right).getLast? = right.getLast? := by
  unfold addMessages
  rw [List.filter_eq_self.mpr (by intro m hm; simpa using h2 m hm)]
  exact List.getLast?_append_of_ne_nil _ h1

theorem mem_of_getLast?_eq (l : List Message) (m : Message)
    (h : l.getLast? = some m) : m ∈ l := by
  obtain ⟨hne, heq⟩ := List.mem_getLast?_eq_getLast (by rw [Option.mem_def, h])
  rw [heq]
  exact List.getLast_mem hne

/-- The last message of a phase conversation does not request tool calls
(the resting shape of every channel away from its ToolNode). -/
def ChanOK (l : List Message) : Prop :=
  ∀ m, l.getLast? = some m → m.tool_calls = false

theorem chanOK_nil : ChanOK [] := by
  intro m hm
  simp at hm

theorem chanOK_addMessages_flagged (left right : List Message)
    (h1 : right ≠ []) (h2 : ∀ m ∈ right, m.id ∉ left.map Message.id)
    (h3 : ∀ m ∈ right, m.tool_calls = false) :
    ChanOK (addMessages left right) := by
  intro m hm
  rw [addMessages_getLast left right h1 h2] at hm
  exact h3 m (mem_of_getLast?_eq right m hm)

theorem check_deep_research_tools_of_chanOK (s : WState)
    (h : ChanOK s.deep_research_messages) :
    check_deep_research_tools s = "check_more_apps" := by
  unfold check_deep_research_tools
  cases hl : s.deep_research_messages.getLast? with
  | none => rfl
  | some m => simp [h m hl]

theorem discoveryRoute_tools (s : WState)
    (h : check_discovery_tools s = "discovery_tools") :
    discoveryRoute s = .discovery_tools := by
  simp [discoveryRoute, h]

theorem discoveryRoute_deep (s : WState)
    (h : check_discovery_tools s = "deep_research") :
    discoveryRoute s = .deep_research := by
  simp [discoveryRoute, h]

theorem deepResearchRoute_tools (s : WState)
    (h : check_deep_research_tools s = "deep_research_tools") :
    deepResearchRoute s = .deep_research_tools := by
  simp [deepResearchRoute, h]

theorem deepResearchRoute_more (s : WState)
    (h : check_deep_research_tools s = "check_more_apps") :
    deepResearchRoute s = .check_more_apps := by
  simp [deepResearchRoute, h]

theorem moreAppsRoute_cases (s : WState) :
    moreAppsRoute s = .deep_research ∨ moreAppsRoute s = .reflection := by
  unfold moreAppsRoute
  by_cases h : check_more_apps_to_research s = "deep_research"
  · left; simp [h]
  · right; simp [h]

/-! ### Node characterization lemmas -/

theorem discovery_node_tool_eq (s : WState) (r : AgentResult)
    (htc : r.has_tool_calls = true) :
    discovery_node s r = some { s with
      discovery_messages := addMessages s.discovery_messages r.messages
      current_phase := .DISCOVERY } := by
  simp [discovery_node, htc]

theorem discovery_node_terminal_eq (s : WState) (r : AgentResult)
    (parsed : List AppOpportunity) (htc : r.has_tool_calls = false)
    (hp : parse_apps_from_response r.content = some parsed) :
    discovery_node s r = some { s with
      discovered_apps := add_apps s.discovered_apps
        (if parsed.isEmpty && !s.discovery_messages.isEmpty then
          extract_apps_from_messages s.discovery_messages
        else parsed)
      scratchpad := merge_scratchpad s.scratchpad
        { executed_queries := s.scratchpad.executed_queries ++
            (s.research_plan.filter (fun q => !q.executed)).map SubQuery.query
          key_findings := s.scratchpad.key_findings
          gaps_identified := s.scratchpad.gaps_identified
          iteration_count := s.scratchpad.iteration_count + 1 }
      discovery_messages := addMessages s.discovery_messages r.messages
      current_phase := .DEEP_RESEARCH } := by
  simp [discovery_node, htc, hp]

theorem deep_research_node_guard_eq (s : WState) (r : AgentResult)
    (hg : s.current_app_index ≥ s.discovered_apps.length) :
    deep_research_node s r = { s with
      current_phase := .REFLECTION
      deep_research_messages := addMessages s.deep_research_messages [] } := by
  unfold deep_research_node
  rw [if_pos hg]

theorem deep_research_node_tool_eq (s : WState) (r : AgentResult)
    (hg : ¬ s.current_app_index ≥ s.discovered_apps.length)
    (htc : r.has_tool_calls = true) :
    deep_research_node s r = { s with
      deep_research_messages :=
        addMessages s.deep_research_messages r.messages
      current_phase := .DEEP_RESEARCH } := by
  unfold deep_research_node
  rw [if_neg hg, if_pos htc]

theorem deep_research_node_terminal_eq (s : WState) (r : AgentResult)
    (hg : ¬ s.current_app_index ≥ s.discovered_apps.length)
    (htc : r.has_tool_calls = false) :
    deep_research_node s r = { s with
      discovered_apps :=
        add_apps
          (s.discovered_apps.set s.current_app_index
            (update_app_with_research
              (s.discovered_apps.getD s.current_app_index { name := "" })
              r.content))
          (s.discovered_apps.set s.current_app_index
            (update_app_with_research
              (s.discovered_apps.getD s.current_app_index { name := "" })
              r.content))
      current_app_index := s.current_app_index + 1
      deep_research_messages := addMessages s.deep_research_messages []
      current_phase := .DEEP_RESEARCH } := by
  unfold deep_research_node
  rw [if_neg hg, if_neg (show ¬ r.has_tool_calls = true by rw [htc]; simp)]

theorem reflection_node_back_eq (s : WState) (content : String)
    (hc : (!pyTruthy (parse_reflection_response content).is_sufficient &&
        decide (s.scratchpad.iteration_count < 3)) = true) :
    reflection_node s (.ok content) = { s with
      is_research_sufficient := false
      reflection_feedback := (parse_reflection_response content).reasoning
      apps_needing_more_research :=
        (parse_reflection_response content).apps_needing_more_research
      research_plan :=
        (parse_reflection_response content).suggested_queries.map
          (fun q => { query := q, purpose := "fill gap" })
      scratchpad := merge_scratchpad s.scratchpad
        { executed_queries := s.scratchpad.executed_queries
          key_findings := s.scratchpad.key_findings
          gaps_identified :=
            (parse_reflection_response content).apps_needing_more_research
          iteration_count := s.scratchpad.iteration_count + 1 }
      current_phase := .DISCOVERY
      discovery_messages := addMessages s.discovery_messages [] } := by
  simp only [reflection_node]
  rw [if_pos hc]

theorem reflection_node_stop_eq (s : WState) (content : String)
    (hc : ¬ (!pyTruthy (parse_reflection_response content).is_sufficient &&
        decide (s.scratchpad.iteration_count < 3)) = true) :
    reflection_node s (.ok content) = { s with
      is_research_sufficient := true
      reflection_feedback := (parse_reflection_response content).reasoning
      current_phase := .PATTERN_EXTRACTION } := by
  simp only [reflection_node]
  rw [if_neg hc]

/-! ### The iteration-count invariant (C1)

The envelope of `scratchpad.iteration_count` at each control position: the
discovery node increments it once per round, and the reflection back-edge
increments it once more, so at discovery entry it is 0 or 2 and from
deep-research up to reflection it is 1 or 3. -/

def countClass : GNode → Nat → Prop
  | .init, n => n = 0
  | .planning, n => n = 0
  | .discovery, n => n = 0 ∨ n = 2
  | .discovery_tools, n => n = 0 ∨ n = 2
  | .deep_research, n => n = 1 ∨ n = 3
  | .deep_research_tools, n => n = 1 ∨ n = 3
  | .check_more_apps, n => n = 1 ∨ n = 3
  | .reflection, n => n = 1 ∨ n = 3
  | .pattern_extraction, n => n ≤ 3
  | .synthesis, n => n ≤ 3
  | .done, n => n ≤ 3

/-- The inductive invariant of the deep research graph. -/
def Inv (c : GNode × WState) : Prop :=
  countClass c.1 c.2.scratchpad.iteration_count ∧
  (c.1 ≠ .deep_research_tools → ChanOK c.2.deep_research_messages)

theorem countClass_le_three {g : GNode} {n : Nat} (h : countClass g n) :
    n ≤ 3 := by
  cases g <;> simp only [countClass] at h <;> omega

theorem inv_step {c c' : GNode × WState} (h : Inv c) (hs : Step c c') :
    Inv c' := by
  obtain ⟨hcount, hchan⟩ := h
  cases hs with
  | init_step s =>
    have h0 : s.scratchpad.iteration_count = 0 := hcount
    refine ⟨?_, fun _ => hchan (fun hcon => GNode.noConfusion hcon)⟩
    show max s.scratchpad.iteration_count 0 = 0
    omega
  | planning_step s month year outcome =>
    have h0 : s.scratchpad.iteration_count = 0 := hcount
    have hsp : (planning_node s month year outcome).scratchpad = s.scratchpad := by
      cases outcome <;> rfl
    have hdp : (planning_node s month year outcome).deep_research_messages =
        s.deep_research_messages := by
      cases outcome <;> rfl
    refine ⟨?_, ?_⟩
    · show (planning_node s month year outcome).scratchpad.iteration_count = 0 ∨
        (planning_node s month year outcome).scratchpad.iteration_count = 2
      rw [hsp]
      exact Or.inl h0
    · intro _
      rw [hdp]
      exact hchan (fun hcon => GNode.noConfusion hcon)
  | discovery_step s r s' hv hn =>
    have h02 : s.scratchpad.iteration_count = 0 ∨
        s.scratchpad.iteration_count = 2 := hcount
    have hchanS : ChanOK s.deep_research_messages := hchan (fun hcon => GNode.noConfusion hcon)
    obtain ⟨m, hm⟩ :=
      Option.isSome_iff_exists.mp (List.getLast?_isSome.mpr hv.nonempty)
    have hflag := hv.last_flag m hm
    have hlast : (addMessages s.discovery_messages r.messages).getLast?
        = some m := by
      rw [addMessages_getLast _ _ hv.nonempty hv.fresh]; exact hm
    cases htc : r.has_tool_calls with
    | true =>
      rw [discovery_node_tool_eq s r htc] at hn
      injection hn with h
      have hs' : s' = _ := h.symm
      have hmsgs : s'.discovery_messages =
          addMessages s.discovery_messages r.messages := by rw [hs']
      have hscr : s'.scratchpad = s.scratchpad := by rw [hs']
      have hdeep : s'.deep_research_messages = s.deep_research_messages := by
        rw [hs']
      have hcheck : check_discovery_tools s' = "discovery_tools" := by
        unfold check_discovery_tools
        rw [hmsgs, hlast]
        simp [hflag, htc]
      rw [discoveryRoute_tools s' hcheck]
      refine ⟨?_, ?_⟩
      · show s'.scratchpad.iteration_count = 0 ∨
          s'.scratchpad.iteration_count = 2
        rw [hscr]; exact h02
      · intro _; rw [hdeep]; exact hchanS
    | false =>
      cases hp : parse_apps_from_response r.content with
      | none =>
        have hnone : discovery_node s r = none := by
          simp [discovery_node, htc, hp]
        rw [hnone] at hn
        cases hn
      | some parsed =>
        rw [discovery_node_terminal_eq s r parsed htc hp] at hn
        injection hn with h
        have hs' : s' = _ := h.symm
        have hmsgs : s'.discovery_messages =
            addMessages s.discovery_messages r.messages := by rw [hs']
        have hscr : s'.scratchpad.iteration_count =
            s.scratchpad.iteration_count + 1 := by
          rw [hs']
          show max s.scratchpad.iteration_count
            (s.scratchpad.iteration_count + 1) = _
          omega
        have hdeep : s'.deep_research_messages = s.deep_research_messages := by
          rw [hs']
        have hcheck : check_discovery_tools s' = "deep_research" := by
          unfold check_discovery_tools
          rw [hmsgs, hlast]
          simp [hflag, htc]
        rw [discoveryRoute_deep s' hcheck]
        refine ⟨?_, ?_⟩
        · show s'.scratchpad.iteration_count = 1 ∨
            s'.scratchpad.iteration_count = 3
          rw [hscr]; omega
        · intro _; rw [hdeep]; exact hchanS
  | discovery_tools_step s toolMsgs hv =>
    have h02 : s.scratchpad.iteration_count = 0 ∨
        s.scratchpad.iteration_count = 2 := hcount
    have hscr : (discovery_tools_node s toolMsgs).scratchpad = s.scratchpad := by
      unfold discovery_tools_node; split <;> rfl
    have hdeep : (discovery_tools_node s toolMsgs).deep_research_messages =
        s.deep_research_messages := by
      unfold discovery_tools_node; split <;> rfl
    refine ⟨?_, ?_⟩
    · show (discovery_tools_node s toolMsgs).scratchpad.iteration_count = 0 ∨
        (discovery_tools_node s toolMsgs).scratchpad.iteration_count = 2
      rw [hscr]; exact h02
    · intro _
      rw [hdeep]
      exact hchan (fun hcon => GNode.noConfusion hcon)
  | deep_research_step s r hv =>
    have h13 : s.scratchpad.iteration_count = 1 ∨
        s.scratchpad.iteration_count = 3 := hcount
    have hchanS : ChanOK s.deep_research_messages := hchan (fun hcon => GNode.noConfusion hcon)
    by_cases hg : s.current_app_index ≥ s.discovered_apps.length
    · have ht := deep_research_node_guard_eq s r hg
      have hdeep : (deep_research_node s r).deep_research_messages =
          s.deep_research_messages := by
        rw [ht]; exact addMessages_nil_right _
      have hscr : (deep_research_node s r).scratchpad = s.scratchpad := by
        rw [ht]
      have hchanR : ChanOK (deep_research_node s r).deep_research_messages := by
        rw [hdeep]; exact hchanS
      have hcheck := check_deep_research_tools_of_chanOK _ hchanR
      rw [deepResearchRoute_more _ hcheck]
      refine ⟨?_, fun _ => hchanR⟩
      show (deep_research_node s r).scratchpad.iteration_count = 1 ∨
        (deep_research_node s r).scratchpad.iteration_count = 3
      rw [hscr]; exact h13
    · cases htc : r.has_tool_calls with
      | true =>
        have ht := deep_research_node_tool_eq s r hg htc
        obtain ⟨m, hm⟩ :=
          Option.isSome_iff_exists.mp (List.getLast?_isSome.mpr hv.nonempty)
        have hflag := hv.last_flag m hm
        have hmsgs : (deep_research_node s r).deep_research_messages =
            addMessages s.deep_research_messages r.messages := by rw [ht]
        have hscr : (deep_research_node s r).scratchpad = s.scratchpad := by
          rw [ht]
        have hcheck : check_deep_research_tools (deep_research_node s r)
            = "deep_research_tools" := by
          unfold check_deep_research_tools
          rw [hmsgs, addMessages_getLast _ _ hv.nonempty hv.fresh, hm]
          simp [hflag, htc]
        rw [deepResearchRoute_tools _ hcheck]
        refine ⟨?_, ?_⟩
        · show (deep_research_node s r).scratchpad.iteration_count = 1 ∨
            (deep_research_node s r).scratchpad.iteration_count = 3
          rw [hscr]; exact h13
        · intro hne; exact absurd rfl hne
      | false =>
        have ht := deep_research_node_terminal_eq s r hg htc
        have hdeep : (deep_research_node s r).deep_research_messages =
            s.deep_research_messages := by
          rw [ht]; exact addMessages_nil_right _
        have hscr : (deep_research_node s r).scratchpad = s.scratchpad := by
          rw [ht]
        have hchanR : ChanOK (deep_research_node s r).deep_research_messages := by
          rw [hdeep]; exact hchanS
        have hcheck := check_deep_research_tools_of_chanOK _ hchanR
        rw [deepResearchRoute_more _ hcheck]
        refine ⟨?_, fun _ => hchanR⟩
        show (deep_research_node s r).scratchpad.iteration_count = 1 ∨
          (deep_research_node s r).scratchpad.iteration_count = 3
        rw [hscr]; exact h13
  | deep_research_tools_step s toolMsgs hv =>
    have h13 : s.scratchpad.iteration_count = 1 ∨
        s.scratchpad.iteration_count = 3 := hcount
    by_cases he : s.deep_research_messages.isEmpty
    · have ht : deep_research_tools_node s toolMsgs = { s with
          deep_research_messages := addMessages s.deep_research_messages [] } := by
        unfold deep_research_tools_node; rw [if_pos he]
      have hscr : (deep_research_tools_node s toolMsgs).scratchpad
          = s.scratchpad := by rw [ht]
      have hdeep : (deep_research_tools_node s toolMsgs).deep_research_messages
          = s.deep_research_messages := by
        rw [ht]; exact addMessages_nil_right _
      refine ⟨?_, ?_⟩
      · show (deep_research_tools_node s toolMsgs).scratchpad.iteration_count
            = 1 ∨
          (deep_research_tools_node s toolMsgs).scratchpad.iteration_count = 3
        rw [hscr]; exact h13
      · intro _
        rw [hdeep, List.isEmpty_iff.mp he]
        exact chanOK_nil
    · have ht : deep_research_tools_node s toolMsgs = { s with
          deep_research_messages :=
            addMessages s.deep_research_messages toolMsgs } := by
        unfold deep_research_tools_node; rw [if_neg he]
      have hscr : (deep_research_tools_node s toolMsgs).scratchpad
          = s.scratchpad := by rw [ht]
      have hdeep : (deep_research_tools_node s toolMsgs).deep_research_messages
          = addMessages s.deep_research_messages toolMsgs := by rw [ht]
      refine ⟨?_, ?_⟩
      · show (deep_research_tools_node s toolMsgs).scratchpad.iteration_count
            = 1 ∨
          (deep_research_tools_node s toolMsgs).scratchpad.iteration_count = 3
        rw [hscr]; exact h13
      · intro _
        rw [hdeep]
        exact chanOK_addMessages_flagged _ _ hv.nonempty hv.fresh hv.no_calls
  | check_more_apps_step s =>
    rcases moreAppsRoute_cases s with hroute | hroute <;> rw [hroute] <;>
      exact ⟨hcount, fun _ => hchan (fun hcon => GNode.noConfusion hcon)⟩
  | reflection_step s outcome =>
    have h13 : s.scratchpad.iteration_count = 1 ∨
        s.scratchpad.iteration_count = 3 := hcount
    have hchanS : ChanOK s.deep_research_messages := hchan (fun hcon => GNode.noConfusion hcon)
    cases outcome with
    | error e =>
      have hphase : (reflection_node s (.error e)).current_phase
          = .PATTERN_EXTRACTION := rfl
      have hcheck : check_research_sufficient (reflection_node s (.error e))
          = "pattern_extraction" := by
        unfold check_research_sufficient
        rw [hphase]
        simp
      have hroute : reflectionRoute (reflection_node s (.error e))
          = .pattern_extraction := by
        unfold reflectionRoute; rw [hcheck]; simp
      rw [hroute]
      refine ⟨?_, ?_⟩
      · show (reflection_node s (.error e)).scratchpad.iteration_count ≤ 3
        show s.scratchpad.iteration_count ≤ 3
        omega
      · intro _
        exact hchanS
    | ok content =>
      by_cases hc : (!pyTruthy (parse_reflection_response content).is_sufficient
          && decide (s.scratchpad.iteration_count < 3)) = true
      · have ht := reflection_node_back_eq s content hc
        have hlt : s.scratchpad.iteration_count < 3 := by
          have h2 := ((Bool.and_eq_true _ _).mp hc).2
          simpa using h2
        have hphase : (reflection_node s (.ok content)).current_phase
            = .DISCOVERY := by rw [ht]
        have hscr : (reflection_node s (.ok content)).scratchpad.iteration_count
            = s.scratchpad.iteration_count + 1 := by
          rw [ht]
          show max s.scratchpad.iteration_count
            (s.scratchpad.iteration_count + 1) = _
          omega
        have hdeep : (reflection_node s (.ok content)).deep_research_messages
            = s.deep_research_messages := by rw [ht]
        have hcheck : check_research_sufficient (reflection_node s (.ok content))
            = "discovery" := by
          unfold check_research_sufficient
          rw [hphase]
          simp
        have hroute : reflectionRoute (reflection_node s (.ok content))
            = .discovery := by
          unfold reflectionRoute; rw [hcheck]; simp
        rw [hroute]
        refine ⟨?_, ?_⟩
        · show (reflection_node s (.ok content)).scratchpad.iteration_count = 0 ∨
            (reflection_node s (.ok content)).scratchpad.iteration_count = 2
          rw [hscr]; omega
        · intro _; rw [hdeep]; exact hchanS
      · have ht := reflection_node_stop_eq s content hc
        have hphase : (reflection_node s (.ok content)).current_phase
            = .PATTERN_EXTRACTION := by rw [ht]
        have hscr : (reflection_node s (.ok content)).scratchpad
            = s.scratchpad := by rw [ht]
        have hdeep : (reflection_node s (.ok content)).deep_research_messages
            = s.deep_research_messages := by rw [ht]
        have hcheck : check_research_sufficient (reflection_node s (.ok content))
            = "pattern_extraction" := by
          unfold check_research_sufficient
          rw [hphase]
          simp
        have hroute : reflectionRoute (reflection_node s (.ok content))
            = .pattern_extraction := by
          unfold reflectionRoute; rw [hcheck]; simp
        rw [hroute]
        refine ⟨?_, ?_⟩
        · show (reflection_node s (.ok content)).scratchpad.iteration_count ≤ 3
          rw [hscr]; omega
        · intro _; rw [hdeep]; exact hchanS
  | pattern_extraction_step s outcome =>
    have hle : s.scratchpad.iteration_count ≤ 3 := hcount
    have hscr : (pattern_extraction_node s outcome).scratchpad = s.scratchpad := by
      cases outcome <;> rfl
    have hdeep : (pattern_extraction_node s outcome).deep_research_messages
        = s.deep_research_messages := by
      cases outcome <;> rfl
    refine ⟨?_, ?_⟩
    · show (pattern_extraction_node s outcome).scratchpad.iteration_count ≤ 3
      rw [hscr]; exact hle
    · intro _
      rw [hdeep]
      exact hchan (fun hcon => GNode.noConfusion hcon)
  | synthesis_step s outcome =>
    have hle : s.scratchpad.iteration_count ≤ 3 := hcount
    have hscr : (synthesis_node s outcome).scratchpad = s.scratchpad := by
      cases outcome <;> rfl
    have hdeep : (synthesis_node s outcome).deep_research_messages
        = s.deep_research_messages := by
      cases outcome <;> rfl
    refine ⟨?_, ?_⟩
    · show (synthesis_node s outcome).scratchpad.iteration_count ≤ 3
      rw [hscr]; exact hle
    · intro _
      rw [hdeep]
      exact hchan (fun hcon => GNode.noConfusion hcon)

theorem inv_reachable (categories : List String) (mode : String) (debug : Bool)
    (c : GNode × WState)
    (h : Relation.ReflTransGen Step (initialConfig categories mode debug) c) :
    Inv c := by
  induction h with
  | refl => exact ⟨rfl, fun _ => chanOK_nil⟩
  | tail _ hstep ih => exact inv_step ih hstep

/-- Claim C1: in every run the scratchpad's `iteration_count` never exceeds 3, and
whenever the reflection node runs with `iteration_count ≥ 3` it routes to
PatternExtraction regardless of the parsed sufficiency verdict, so the
Discovery–Reflection loop always terminates. -/
theorem iteration_cap_and_reflection_routing :
    (∀ c : GNode × WState, ReachableConfig c →
      c.2.scratchpad.iteration_count ≤ 3) ∧
    (∀ (s : WState) (outcome : Except String String),
      3 ≤ s.scratchpad.iteration_count →
      (reflection_node s outcome).current_phase = .PATTERN_EXTRACTION ∧
      check_research_sufficient (reflection_node s outcome)
        = "pattern_extraction") := by
  constructor
  · rintro c ⟨categories, mode, debug, h⟩
    exact countClass_le_three (inv_reachable categories mode debug c h).1
  · intro s outcome hge
    cases outcome with
    | error e =>
      refine ⟨rfl, ?_⟩
      unfold check_research_sufficient
      rw [show (reflection_node s (.error e)).current_phase
          = .PATTERN_EXTRACTION from rfl]
      simp
    | ok content =>
      have hc : ¬ (!pyTruthy (parse_reflection_response content).is_sufficient
          && decide (s.scratchpad.iteration_count < 3)) = true := by
        simp only [Bool.and_eq_true, decide_eq_true_eq]
        rintro ⟨-, hlt⟩
        omega
      have ht := reflection_node_stop_eq s content hc
      have hphase : (reflection_node s (.ok content)).current_phase
          = .PATTERN_EXTRACTION := by rw [ht]
      refine ⟨hphase, ?_⟩
      unfold check_research_sufficient
      rw [hphase]
      simp

/-! ### The candidate cursor (C5) -/

/-- The cursor never exceeds the number of discovered candidates. -/
def CursorInv (c : GNode × WState) : Prop :=
  c.2.current_app_index ≤ c.2.discovered_apps.length

theorem cursor_inv_step {c c' : GNode × WState} (h : CursorInv c)
    (hs : Step c c') : CursorInv c' := by
  cases hs with
  | init_step s => exact h
  | planning_step s month year outcome =>
    cases outcome <;> exact h
  | discovery_step s r s' hv hn =>
    cases htc : r.has_tool_calls with
    | true =>
      rw [discovery_node_tool_eq s r htc] at hn
      injection hn with heq
      rw [show s' = _ from heq.symm]
      exact h
    | false =>
      cases hp : parse_apps_from_response r.content with
      | none =>
        have hnone : discovery_node s r = none := by
          simp [discovery_node, htc, hp]
        rw [hnone] at hn
        cases hn
      | some parsed =>
        rw [discovery_node_terminal_eq s r parsed htc hp] at hn
        injection hn with heq
        rw [show s' = _ from heq.symm]
        show s.current_app_index ≤ (add_apps s.discovered_apps _).length
        exact le_trans h (add_apps_length_le _ _)
  | discovery_tools_step s toolMsgs hv =>
    show (discovery_tools_node s toolMsgs).current_app_index ≤
      (discovery_tools_node s toolMsgs).discovered_apps.length
    have h1 : (discovery_tools_node s toolMsgs).current_app_index =
        s.current_app_index := by
      unfold discovery_tools_node; split <;> rfl
    have h2 : (discovery_tools_node s toolMsgs).discovered_apps =
        s.discovered_apps := by
      unfold discovery_tools_node; split <;> rfl
    rw [h1, h2]; exact h
  | deep_research_step s r hv =>
    by_cases hg : s.current_app_index ≥ s.discovered_apps.length
    · rw [deep_research_node_guard_eq s r hg]
      exact h
    · cases htc : r.has_tool_calls with
      | true =>
        rw [deep_research_node_tool_eq s r hg htc]
        exact h
      | false =>
        rw [deep_research_node_terminal_eq s r hg htc]
        show s.current_app_index + 1 ≤ (add_apps _ _).length
        have hlen := add_apps_length_le
          (s.discovered_apps.set s.current_app_index
            (update_app_with_research
              (s.discovered_apps.getD s.current_app_index { name := "" })
              r.content))
          (s.discovered_apps.set s.current_app_index
            (update_app_with_research
              (s.discovered_apps.getD s.current_app_index { name := "" })
              r.content))
        rw [List.length_set] at hlen
        omega
  | deep_research_tools_step s toolMsgs hv =>
    show (deep_research_tools_node s toolMsgs).current_app_index ≤
      (deep_research_tools_node s toolMsgs).discovered_apps.length
    have h1 : (deep_research_tools_node s toolMsgs).current_app_index =
        s.current_app_index := by
      unfold deep_research_tools_node; split <;> rfl
    have h2 : (deep_research_tools_node s toolMsgs).discovered_apps =
        s.discovered_apps := by
      unfold deep_research_tools_node; split <;> rfl
    rw [h1, h2]; exact h
  | check_more_apps_step s =>
    rcases moreAppsRoute_cases s with hroute | hroute <;> rw [hroute] <;> exact h
  | reflection_step s outcome =>
    cases outcome with
    | error e => exact h
    | ok content =>
      by_cases hc : (!pyTruthy (parse_reflection_response content).is_sufficient
          && decide (s.scratchpad.iteration_count < 3)) = true
      · rw [reflection_node_back_eq s content hc]
        exact h
      · rw [reflection_node_stop_eq s content hc]
        exact h
  | pattern_extraction_step s outcome =>
    cases outcome <;> exact h
  | synthesis_step s outcome =>
    cases outcome <;> exact h

theorem cursor_inv_reachable (categories : List String) (mode : String)
    (debug : Bool) (c : GNode × WState)
    (h : Relation.ReflTransGen Step (initialConfig categories mode debug) c) :
    CursorInv c := by
  induction h with
  | refl => exact Nat.le_refl 0
  | tail _ hstep ih => exact cursor_inv_step ih hstep

/-- Claim C5: `current_app_index` is monotonically non-decreasing under every
node's delta (along every step of the graph), never exceeds the length of
`discovered_apps` in any reachable configuration, and as soon as it reaches
that length the deep-research node switches the phase to Reflection without
touching the cursor and the router sends the run to the reflection node —
once, with no further deep-research loop. -/
theorem cursor_monotone_bounded_reflects_once :
    (∀ c c' : GNode × WState, Step c c' →
      c.2.current_app_index ≤ c'.2.current_app_index) ∧
    (∀ c : GNode × WState, ReachableConfig c →
      c.2.current_app_index ≤ c.2.discovered_apps.length) ∧
    (∀ (s : WState) (r : AgentResult),
      ChanOK s.deep_research_messages →
      s.current_app_index ≥ s.discovered_apps.length →
      (deep_research_node s r).current_phase = .REFLECTION ∧
      (deep_research_node s r).current_app_index = s.current_app_index ∧
      deepResearchRoute (deep_research_node s r) = .check_more_apps ∧
      check_more_apps_to_research (deep_research_node s r) = "reflection") := by
  refine ⟨?_, ?_, ?_⟩
  · intro c c' hs
    cases hs with
    | init_step s => exact Nat.le_refl _
    | planning_step s month year outcome =>
      cases outcome <;> exact Nat.le_refl _
    | discovery_step s r s' hv hn =>
      cases htc : r.has_tool_calls with
      | true =>
        rw [discovery_node_tool_eq s r htc] at hn
        injection hn with heq
        rw [show s' = _ from heq.symm]
      | false =>
        cases hp : parse_apps_from_response r.content with
        | none =>
          have hnone : discovery_node s r = none := by
            simp [discovery_node, htc, hp]
          rw [hnone] at hn
          cases hn
        | some parsed =>
          rw [discovery_node_terminal_eq s r parsed htc hp] at hn
          injection hn with heq
          rw [show s' = _ from heq.symm]
    | discovery_tools_step s toolMsgs hv =>
      show s.current_app_index ≤
        (discovery_tools_node s toolMsgs).current_app_index
      have h1 : (discovery_tools_node s toolMsgs).current_app_index =
          s.current_app_index := by
        unfold discovery_tools_node; split <;> rfl
      rw [h1]
    | deep_research_step s r hv =>
      by_cases hg : s.current_app_index ≥ s.discovered_apps.length
      · rw [deep_research_node_guard_eq s r hg]
      · cases htc : r.has_tool_calls with
        | true => rw [deep_research_node_tool_eq s r hg htc]
        | false =>
          rw [deep_research_node_terminal_eq s r hg htc]
          exact Nat.le_succ _
    | deep_research_tools_step s toolMsgs hv =>
      show s.current_app_index ≤
        (deep_research_tools_node s toolMsgs).current_app_index
      have h1 : (deep_research_tools_node s toolMsgs).current_app_index =
          s.current_app_index := by
        unfold deep_research_tools_node; split <;> rfl
      rw [h1]
    | check_more_apps_step s =>
      rcases moreAppsRoute_cases s with hroute | hroute <;> rw [hroute]
    | reflection_step s outcome =>
      cases outcome with
      | error e => exact Nat.le_refl _
      | ok content =>
        by_cases hc : (!pyTruthy
            (parse_reflection_response content).is_sufficient
            && decide (s.scratchpad.iteration_count < 3)) = true
        · rw [reflection_node_back_eq s content hc]
        · rw [reflection_node_stop_eq s content hc]
    | pattern_extraction_step s outcome =>
      cases outcome <;> exact Nat.le_refl _
    | synthesis_step s outcome =>
      cases outcome <;> exact Nat.le_refl _
  · rintro c ⟨categories, mode, debug, h⟩
    exact cursor_inv_reachable categories mode debug c h
  · intro s r hchanS hg
    have ht := deep_research_node_guard_eq s r hg
    have hphase : (deep_research_node s r).current_phase = .REFLECTION := by
      rw [ht]
    have hidx : (deep_research_node s r).current_app_index =
        s.current_app_index := by rw [ht]
    have hdeep : (deep_research_node s r).deep_research_messages =
        s.deep_research_messages := by
      rw [ht]; exact addMessages_nil_right _
    have hchanR : ChanOK (deep_research_node s r).deep_research_messages := by
      rw [hdeep]; exact hchanS
    have hcheck := check_deep_research_tools_of_chanOK _ hchanR
    refine ⟨hphase, hidx, deepResearchRoute_more _ hcheck, ?_⟩
    unfold check_more_apps_to_research
    rw [hphase]
    simp

/-! ### Witnesses: the main theorems applied at concrete inputs -/

/-- Reflection-phase state at the iteration cap. -/
def capTestState : WState :=
  { create_init_state ["productivity"] "general" false with
    current_phase := .REFLECTION
    scratchpad := { iteration_count := 3 } }

/-- Witness for the iteration-cap theorem: the initial configuration is
reachable and satisfies the bound, and at the cap the reflection node routes
to PatternExtraction. -/
theorem iteration_cap_and_reflection_routing_witness :
    (initialConfig ["productivity"] "general" false).2.scratchpad.iteration_count
      ≤ 3 ∧
    ((reflection_node capTestState (.ok "looks fine")).current_phase
        = .PATTERN_EXTRACTION ∧
      check_research_sufficient (reflection_node capTestState (.ok "looks fine"))
        = "pattern_extraction") :=
  ⟨iteration_cap_and_reflection_routing.1 _
      ⟨["productivity"], "general", false, Relation.ReflTransGen.refl⟩,
    iteration_cap_and_reflection_routing.2 capTestState (.ok "looks fine")
      (by decide)⟩

/-- Freshly initialized run state (zero candidates, cursor at zero). -/
def emptyCursorState : WState := create_init_state ["productivity"] "general" false

/-- A terminal agent result used to exercise the cursor guard. -/
def idleResult : AgentResult :=
  { messages := [], content := "", has_tool_calls := false }

/-- Witness for the cursor theorem: one concrete graph step keeps the cursor
non-decreasing, the initial configuration satisfies the bound, and with the
cursor at the candidate count the deep-research node hands over to
reflection. -/
theorem cursor_monotone_bounded_reflects_once_witness :
    emptyCursorState.current_app_index ≤
      (init_node emptyCursorState).current_app_index ∧
    (initialConfig ["productivity"] "general" false).2.current_app_index ≤
      (initialConfig ["productivity"] "general" false).2.discovered_apps.length ∧
    ((deep_research_node emptyCursorState idleResult).current_phase
        = .REFLECTION ∧
      (deep_research_node emptyCursorState idleResult).current_app_index
        = emptyCursorState.current_app_index ∧
      deepResearchRoute (deep_research_node emptyCursorState idleResult)
        = .check_more_apps ∧
      check_more_apps_to_research (deep_research_node emptyCursorState idleResult)
        = "reflection") :=
  ⟨cursor_monotone_bounded_reflects_once.1 (.init, emptyCursorState)
      (.planning, init_node emptyCursorState) (Step.init_step emptyCursorState),
    cursor_monotone_bounded_reflects_once.2.1 _
      ⟨["productivity"], "general", false, Relation.ReflTransGen.refl⟩,
    cursor_monotone_bounded_reflects_once.2.2 emptyCursorState idleResult
      chanOK_nil (by decide)⟩

/-- Freshly initialized run state used by the reflection witness. -/
def reflectWitnessState : WState := create_init_state ["fitness"] "general" false

/-- Witness for the amended reflection policy: an exception fails open to
PatternExtraction, while an unparseable response below the cap goes back to
Discovery. -/
theorem reflection_fail_open_amended_witness :
    ((reflection_node reflectWitnessState (.error "boom")).is_research_sufficient
        = true ∧
      (reflection_node reflectWitnessState (.error "boom")).current_phase
        = .PATTERN_EXTRACTION ∧
      check_research_sufficient (reflection_node reflectWitnessState (.error "boom"))
        = "pattern_extraction") ∧
    ((reflection_node reflectWitnessState (.ok "plain text")).current_phase
        = .DISCOVERY ∧
      (reflection_node reflectWitnessState (.ok "plain text")).is_research_sufficient
        = false) :=
  ⟨reflection_fail_open_amended.1 reflectWitnessState "boom",
    (reflection_fail_open_amended.2 reflectWitnessState "plain text" rfl).1
      (by decide)⟩

/-- Freshly initialized run state used by the planning witness. -/
def planWitnessState : WState := create_init_state ["fitness"] "general" false

/-- Witness for the amended planning fallback: a raised planner call still
moves to Discovery with at most 12 queries covering the single category, and
a response with no parseable sub-queries does too. -/
theorem planning_fallback_amended_witness :
    ((planning_node planWitnessState "May" 2025 (.error "rate limited")).current_phase
        = .DISCOVERY ∧
      (planning_node planWitnessState "May" 2025 (.error "rate limited")).research_plan.length
        ≤ 12 ∧
      ∃ q ∈ (planning_node planWitnessState "May" 2025
          (.error "rate limited")).research_plan,
        ("fitness").data <+: q.query.data) ∧
    (planning_node planWitnessState "May" 2025 (.ok "plain")).current_phase
      = .DISCOVERY :=
  ⟨⟨(planning_fallback_amended.1 planWitnessState "May" 2025 "rate limited").1,
    (planning_fallback_amended.1 planWitnessState "May" 2025 "rate limited").2.2.1,
    (planning_fallback_amended.1 planWitnessState "May" 2025 "rate limited").2.2.2
      "fitness" (by decide)⟩,
    (planning_fallback_amended.2 planWitnessState "May" 2025 "plain" rfl).1⟩

/-- A duplicate-free scratchpad state. -/
def scratchA : ResearchScratchpad :=
  { executed_queries := ["q1"], key_findings := ["f1"]
    gaps_identified := ["g0"], iteration_count := 1 }

/-- A duplicate-free scratchpad delta. -/
def scratchB : ResearchScratchpad :=
  { executed_queries := ["q1", "q2"], key_findings := ["f2"]
    gaps_identified := [], iteration_count := 2 }

/-- Witness for the amended scratchpad-merge theorem at concrete
duplicate-free inputs. -/
theorem merge_scratchpad_idempotent_amended_witness :
    merge_scratchpad (merge_scratchpad scratchA scratchB) scratchB
      = merge_scratchpad scratchA scratchB ∧
    ((merge_scratchpad scratchA scratchB).executed_queries.Nodup ∧
      ∀ q, q ∈ (merge_scratchpad scratchA scratchB).executed_queries ↔
        q ∈ scratchA.executed_queries ∨ q ∈ scratchB.executed_queries) ∧
    (merge_scratchpad scratchA scratchB).gaps_identified
      = scratchA.gaps_identified ∧
    (merge_scratchpad scratchA scratchB).iteration_count
      = max scratchA.iteration_count scratchB.iteration_count :=
  ⟨merge_scratchpad_idempotent_amended.1 scratchA scratchB,
    merge_scratchpad_idempotent_amended.2.1 scratchA scratchB
      (by decide) (by decide),
    merge_scratchpad_idempotent_amended.2.2.2.1 scratchA scratchB,
    merge_scratchpad_idempotent_amended.2.2.2.2 scratchA scratchB⟩

/-- Witness for the amended parser-step-order theorem: a fenced block wins
immediately, and the greedy bracket span is used once the first two attempts
fail. -/
theorem extract_json_step_order_amended_witness :
    extract_json_from_response "```json\n[1]\n```" = some (.arr [.num 1]) ∧
    extract_json_from_response "x [3] y" = some (.arr [.num 3]) :=
  ⟨(extract_json_step_order_amended "```json\n[1]\n```").1 _ rfl,
    (extract_json_step_order_amended "x [3] y").2.2.1 rfl rfl _ rfl⟩

/-- A partially researched candidate. -/
def appWitness : AppOpportunity := { name := "CalTracker", raw_research := "seed" }

/-- Witness for the amended deep-research update: prose output only appends
to `raw_research`, a non-empty JSON object marks research complete and never
renames. -/
theorem update_app_with_research_amended_witness :
    update_app_with_research appWitness "just prose" =
      { appWitness with
        raw_research := appWitness.raw_research ++ "\n\n" ++ "just prose" } ∧
    ((update_app_with_research appWitness
        "\x7b\"developer\": \"Acme\"\x7d").research_complete = true ∧
      (update_app_with_research appWitness
        "\x7b\"developer\": \"Acme\"\x7d").name = appWitness.name) :=
  ⟨update_app_with_research_amended.1 appWitness "just prose" rfl,
    update_app_with_research_amended.2 appWitness
      "\x7b\"developer\": \"Acme\"\x7d" rfl⟩

/-- Witness for the discovery-parse theorem: a single named object yields one
candidate, a mixed array skips the unnamed items, and a bare number item is
skipped. -/
theorem parse_apps_single_object_and_skip_witness :
    (parse_apps_from_response "\x7b\"name\": \"FocusTimer\"\x7d" =
        some (([Json.obj [("name", Json.str "FocusTimer")]]).filterMap
          parseAppItem) ∧
      (([Json.obj [("name", Json.str "FocusTimer")]]).filterMap
        parseAppItem).length = 1) ∧
    parse_apps_from_response "[1, \x7b\"name\": \"A\"\x7d, \"x\"]" =
      some (([Json.num 1, Json.obj [("name", Json.str "A")],
        Json.str "x"]).filterMap parseAppItem) ∧
    parseAppItem (Json.num 7) = none :=
  ⟨⟨(parse_apps_single_object_and_skip.1
        "\x7b\"name\": \"FocusTimer\"\x7d" _ rfl).1,
      (parse_apps_single_object_and_skip.1
        "\x7b\"name\": \"FocusTimer\"\x7d" _ rfl).2 rfl⟩,
    parse_apps_single_object_and_skip.2.1 "[1, \x7b\"name\": \"A\"\x7d, \"x\"]"
      _ rfl,
    parse_apps_single_object_and_skip.2.2 (Json.num 7)
      (by rintro ⟨fields, h, -⟩; cases h)⟩

end AAgent
